import Mathlib

/-!
# gcp-vm-launcher: the two HTTP handlers of `vmfuncs.go`

The program is a pair of HTTP handlers (`launchVM`, `killVM`) that check the
request, decode its JSON body, render a template taken from the environment
and call the cloud SDK (`createInstance`, `destroyInstance`).

Embedding.  Every effect the Go code performs is recorded, in program order,
as an `Event`; a handler is a function from the request to the list of events
it performs, and `createInstance` / `destroyInstance` return the Go `error`
(`none` is `nil`) together with their events.

What the program uses but does not define is treated in two ways.

* The process environment, the template parser, the protobuf request types
  with their JSON decoding, and the compute SDK are fields of `Env`: a
  statement quantified over `Env` holds for every behaviour of those parts.
* Two pieces of the Go standard library decide what the handlers answer and
  are modelled after their sources: the syntax check and the choice of decoder
  of `json.Unmarshal` (`encoding/json`, `scanner.go` and `decode.go`), and the
  execution of a parsed template under `missingkey=error` (`text/template`,
  `exec.go`) for text, field references, boolean constants and `if`.  What
  lies beyond (decoding the members of an object, printing a number, the
  other template constructs) is again a field of `Env`.

Strings that the program only compares with literals or passes on are Lean
strings; the request body is a list of bytes.
-/

namespace VmLauncher

/-! ## Go values -/

/-- Go `error` values.  `errorf` is `fmt.Errorf(msg)`, `wrapf pfx inner` is
`fmt.Errorf(pfx + ": %w", inner)`, `external` is an error value handed back by
a library or by the SDK, `jsonSyntax` and `jsonType` are the `*SyntaxError`
and `*UnmarshalTypeError` of `encoding/json` (a syntax error keeps the
offending byte, the context text and the offset instead of the rendered
message; `char = none` is "unexpected end of JSON input"). -/
inductive GoError where
  | errorf (msg : String)
  | wrapf (pfx : String) (inner : GoError)
  | external (origin : String) (msg : String)
  | jsonSyntax (char : Option Nat) (context : String) (offset : Nat)
  | jsonType (value : String)
  deriving DecidableEq, Repr

/-- Values of Go type `interface{}` as `encoding/json` stores them: `nil`,
`bool`, `float64` (its 64 bits), `string`, `[]interface{}` and
`map[string]interface{}`. -/
inductive GoValue where
  | nil
  | bool (b : Bool)
  | float64 (bits : Nat)
  | string (s : String)
  | slice (xs : List GoValue)
  | map (m : List (String × GoValue))

/-- A non-nil `map[string]interface{}`. -/
abbrev GoMap := List (String × GoValue)

/-- A `map[string]interface{}` variable; `none` is the nil map. -/
abbrev Data := Option GoMap

/-- A `context.Context` handle. -/
abbrev Context := Nat

/-! ## `net/http` request -/

/-- Go `http.Header`, a `map[string][]string`. -/
abbrev Header := List (String × List String)

/-- Go `Header.Get`: the first value stored under the key, or the empty string.
(The key the program passes, `Content-Type`, is already in canonical form.) -/
def Header.Get (h : Header) (key : String) : String :=
  match h.lookup key with
  | some (v :: _) => v
  | _ => ""

/-- Go `http.MethodPost`. -/
def MethodPost : String := "POST"

/-- Go `http.StatusBadRequest`. -/
def StatusBadRequest : Nat := 400

/-- Go `http.StatusInternalServerError`. -/
def StatusInternalServerError : Nat := 500

/-- The part of `*http.Request` the handlers use.  `Body` is what
`io.ReadAll(r.Body)` returns: the bytes, or the read error. -/
structure Request where
  Method : String
  Header : Header
  Body : Except GoError (List Nat)
  ctx : Context

/-! ## `encoding/json`: the scanner behind `json.Unmarshal`

`json.Unmarshal` first runs `checkValid` over the whole input and returns its
`*SyntaxError` if there is one; only then does it decode.  The scanner is the
byte-at-a-time state machine of the standard library (`scanner.go`); it is
transcribed here state by state.  Bytes are natural numbers. -/

/-- The scanner's result codes. -/
inductive ScanCode where
  | scanContinue | scanBeginLiteral | scanBeginObject | scanObjectKey
  | scanObjectValue | scanEndObject | scanBeginArray | scanArrayValue
  | scanEndArray | scanSkipSpace | scanEnd | scanError
  deriving DecidableEq, Repr

/-- The entries of the scanner's `parseState` stack. -/
inductive ParseState where
  | parseObjectKey | parseObjectValue | parseArrayValue
  deriving DecidableEq, Repr

/-- The scanner's `step` field: which state function handles the next byte. -/
inductive Step where
  | stateBeginValueOrEmpty | stateBeginValue | stateBeginStringOrEmpty
  | stateBeginString | stateEndValue | stateEndTop
  | stateInString | stateInStringEsc | stateInStringEscU | stateInStringEscU1
  | stateInStringEscU12 | stateInStringEscU123
  | stateNeg | state1 | state0 | stateDot | stateDot0 | stateE | stateESign
  | stateE0 | stateT | stateTr | stateTru | stateF | stateFa | stateFal
  | stateFals | stateN | stateNu | stateNul | stateError
  deriving DecidableEq, Repr

/-- The `scanner` struct.  `parseState` is kept with the innermost entry
first. -/
structure Scanner where
  step : Step
  endTop : Bool
  parseState : List ParseState
  err : Option GoError
  bytes : Nat
  deriving DecidableEq, Repr

/-- The nesting limit `maxNestingDepth`. -/
def maxNestingDepth : Nat := 10000

/-- Go `isSpace`: space, tab, carriage return, newline. -/
def isSpace (c : Nat) : Bool :=
  c ≤ 32 && (c == 32 || c == 9 || c == 13 || c == 10)

/-- A decimal digit byte. -/
def isDigit (c : Nat) : Bool := 48 ≤ c && c ≤ 57

/-- A hexadecimal digit byte. -/
def isHex (c : Nat) : Bool :=
  (48 ≤ c && c ≤ 57) || (97 ≤ c && c ≤ 102) || (65 ≤ c && c ≤ 70)

/-- Go `scanner.error`: records the syntax error and parks the scanner in
`stateError`. -/
def Scanner.error (s : Scanner) (c : Nat) (context : String) : Scanner × ScanCode :=
  ({ s with step := .stateError, err := some (.jsonSyntax (some c) context s.bytes) },
    .scanError)

/-- Go `scanner.pushParseState`; the caller has already set `step`. -/
def Scanner.pushParseState (s : Scanner) (c : Nat) (newParseState : ParseState)
    (successState : ScanCode) : Scanner × ScanCode :=
  let s1 := { s with parseState := newParseState :: s.parseState }
  if s1.parseState.length ≤ maxNestingDepth then (s1, successState)
  else s1.error c "exceeded max depth"

/-- Go `scanner.popParseState`. -/
def Scanner.popParseState (s : Scanner) : Scanner :=
  let rest := s.parseState.tail
  if rest.length = 0 then { s with parseState := rest, step := .stateEndTop, endTop := true }
  else { s with parseState := rest, step := .stateEndValue }

/-- Go `stateEndTop`: only space may follow the top-level value; the complaint
about another byte is recorded and reported on the next call. -/
def stateEndTop (s : Scanner) (c : Nat) : Scanner × ScanCode :=
  if !isSpace c then ((s.error c "after top-level value").1, .scanEnd)
  else (s, .scanEnd)

/-- Go `stateEndValue`: the byte after a complete value. -/
def stateEndValue (s : Scanner) (c : Nat) : Scanner × ScanCode :=
  match s.parseState with
  | [] => stateEndTop { s with step := .stateEndTop, endTop := true } c
  | ps :: rest =>
    if isSpace c then ({ s with step := .stateEndValue }, .scanSkipSpace)
    else
      match ps with
      | .parseObjectKey =>
        if c = 58 then
          ({ s with parseState := .parseObjectValue :: rest, step := .stateBeginValue },
            .scanObjectKey)
        else s.error c "after object key"
      | .parseObjectValue =>
        if c = 44 then
          ({ s with parseState := .parseObjectKey :: rest, step := .stateBeginString },
            .scanObjectValue)
        else if c = 125 then (s.popParseState, .scanEndObject)
        else s.error c "after object key:value pair"
      | .parseArrayValue =>
        if c = 44 then ({ s with step := .stateBeginValue }, .scanArrayValue)
        else if c = 93 then (s.popParseState, .scanEndArray)
        else s.error c "after array element"

/-- Go `stateBeginValue`: the first byte of a value. -/
def stateBeginValue (s : Scanner) (c : Nat) : Scanner × ScanCode :=
  if isSpace c then (s, .scanSkipSpace)
  else if c = 123 then
    { s with step := .stateBeginStringOrEmpty }.pushParseState c .parseObjectKey .scanBeginObject
  else if c = 91 then
    { s with step := .stateBeginValueOrEmpty }.pushParseState c .parseArrayValue .scanBeginArray
  else if c = 34 then ({ s with step := .stateInString }, .scanBeginLiteral)
  else if c = 45 then ({ s with step := .stateNeg }, .scanBeginLiteral)
  else if c = 48 then ({ s with step := .state0 }, .scanBeginLiteral)
  else if c = 116 then ({ s with step := .stateT }, .scanBeginLiteral)
  else if c = 102 then ({ s with step := .stateF }, .scanBeginLiteral)
  else if c = 110 then ({ s with step := .stateN }, .scanBeginLiteral)
  else if 49 ≤ c ∧ c ≤ 57 then ({ s with step := .state1 }, .scanBeginLiteral)
  else s.error c "looking for beginning of value"

/-- Go `stateBeginValueOrEmpty`: after the opening bracket of an array. -/
def stateBeginValueOrEmpty (s : Scanner) (c : Nat) : Scanner × ScanCode :=
  if isSpace c then (s, .scanSkipSpace)
  else if c = 93 then stateEndValue s c
  else stateBeginValue s c

/-- Go `stateBeginString`: the opening quote of an object key. -/
def stateBeginString (s : Scanner) (c : Nat) : Scanner × ScanCode :=
  if isSpace c then (s, .scanSkipSpace)
  else if c = 34 then ({ s with step := .stateInString }, .scanBeginLiteral)
  else s.error c "looking for beginning of object key string"

/-- Go `stateBeginStringOrEmpty`: after the opening brace of an object. -/
def stateBeginStringOrEmpty (s : Scanner) (c : Nat) : Scanner × ScanCode :=
  if isSpace c then (s, .scanSkipSpace)
  else if c = 125 then
    stateEndValue { s with parseState := s.parseState.set 0 .parseObjectValue } c
  else stateBeginString s c

/-- Go `stateInString`. -/
def stateInString (s : Scanner) (c : Nat) : Scanner × ScanCode :=
  if c = 34 then ({ s with step := .stateEndValue }, .scanContinue)
  else if c = 92 then ({ s with step := .stateInStringEsc }, .scanContinue)
  else if c < 32 then s.error c "in string literal"
  else (s, .scanContinue)

/-- Go `stateInStringEsc`: the byte after a backslash. -/
def stateInStringEsc (s : Scanner) (c : Nat) : Scanner × ScanCode :=
  if c = 98 ∨ c = 102 ∨ c = 110 ∨ c = 114 ∨ c = 116 ∨ c = 92 ∨ c = 47 ∨ c = 34 then
    ({ s with step := .stateInString }, .scanContinue)
  else if c = 117 then ({ s with step := .stateInStringEscU }, .scanContinue)
  else s.error c "in string escape code"

/-- The four states `stateInStringEscU`, `...U1`, `...U12`, `...U123`: one
hexadecimal digit each, moving on to `next`. -/
def stateInStringEscHex (next : Step) (s : Scanner) (c : Nat) : Scanner × ScanCode :=
  if isHex c then ({ s with step := next }, .scanContinue)
  else s.error c "in \\u hexadecimal character escape"

/-- Go `stateNeg`: after the minus sign. -/
def stateNeg (s : Scanner) (c : Nat) : Scanner × ScanCode :=
  if c = 48 then ({ s with step := .state0 }, .scanContinue)
  else if 49 ≤ c ∧ c ≤ 57 then ({ s with step := .state1 }, .scanContinue)
  else s.error c "in numeric literal"

/-- Go `state0`: after a leading zero (or the integer digits). -/
def state0 (s : Scanner) (c : Nat) : Scanner × ScanCode :=
  if c = 46 then ({ s with step := .stateDot }, .scanContinue)
  else if c = 101 ∨ c = 69 then ({ s with step := .stateE }, .scanContinue)
  else stateEndValue s c

/-- Go `state1`: inside the integer digits. -/
def state1 (s : Scanner) (c : Nat) : Scanner × ScanCode :=
  if isDigit c then ({ s with step := .state1 }, .scanContinue)
  else state0 s c

/-- Go `stateDot`: after the decimal point. -/
def stateDot (s : Scanner) (c : Nat) : Scanner × ScanCode :=
  if isDigit c then ({ s with step := .stateDot0 }, .scanContinue)
  else s.error c "after decimal point in numeric literal"

/-- Go `stateDot0`: inside the fraction digits. -/
def stateDot0 (s : Scanner) (c : Nat) : Scanner × ScanCode :=
  if isDigit c then (s, .scanContinue)
  else if c = 101 ∨ c = 69 then ({ s with step := .stateE }, .scanContinue)
  else stateEndValue s c

/-- Go `stateESign`: after the exponent sign. -/
def stateESign (s : Scanner) (c : Nat) : Scanner × ScanCode :=
  if isDigit c then ({ s with step := .stateE0 }, .scanContinue)
  else s.error c "in exponent of numeric literal"

/-- Go `stateE`: after the exponent marker. -/
def stateE (s : Scanner) (c : Nat) : Scanner × ScanCode :=
  if c = 43 ∨ c = 45 then ({ s with step := .stateESign }, .scanContinue)
  else stateESign s c

/-- Go `stateE0`: inside the exponent digits. -/
def stateE0 (s : Scanner) (c : Nat) : Scanner × ScanCode :=
  if isDigit c then (s, .scanContinue)
  else stateEndValue s c

/-- The states inside the literals `true`, `false`, `null`: the byte must be
`want`, and the scanner moves on to `next`. -/
def stateLiteral (want : Nat) (next : Step) (context : String) (s : Scanner) (c : Nat) :
    Scanner × ScanCode :=
  if c = want then ({ s with step := next }, .scanContinue)
  else s.error c context

/-- Calling `s.step(s, c)`: the state function selected by the `step` field. -/
def Scanner.doStep (s : Scanner) (c : Nat) : Scanner × ScanCode :=
  match s.step with
  | .stateBeginValueOrEmpty => stateBeginValueOrEmpty s c
  | .stateBeginValue => stateBeginValue s c
  | .stateBeginStringOrEmpty => stateBeginStringOrEmpty s c
  | .stateBeginString => stateBeginString s c
  | .stateEndValue => stateEndValue s c
  | .stateEndTop => stateEndTop s c
  | .stateInString => stateInString s c
  | .stateInStringEsc => stateInStringEsc s c
  | .stateInStringEscU => stateInStringEscHex .stateInStringEscU1 s c
  | .stateInStringEscU1 => stateInStringEscHex .stateInStringEscU12 s c
  | .stateInStringEscU12 => stateInStringEscHex .stateInStringEscU123 s c
  | .stateInStringEscU123 => stateInStringEscHex .stateInString s c
  | .stateNeg => stateNeg s c
  | .state1 => state1 s c
  | .state0 => state0 s c
  | .stateDot => stateDot s c
  | .stateDot0 => stateDot0 s c
  | .stateE => stateE s c
  | .stateESign => stateESign s c
  | .stateE0 => stateE0 s c
  | .stateT => stateLiteral 114 .stateTr "in literal true (expecting 'r')" s c
  | .stateTr => stateLiteral 117 .stateTru "in literal true (expecting 'u')" s c
  | .stateTru => stateLiteral 101 .stateEndValue "in literal true (expecting 'e')" s c
  | .stateF => stateLiteral 97 .stateFa "in literal false (expecting 'a')" s c
  | .stateFa => stateLiteral 108 .stateFal "in literal false (expecting 'l')" s c
  | .stateFal => stateLiteral 115 .stateFals "in literal false (expecting 's')" s c
  | .stateFals => stateLiteral 101 .stateEndValue "in literal false (expecting 'e')" s c
  | .stateN => stateLiteral 117 .stateNu "in literal null (expecting 'u')" s c
  | .stateNu => stateLiteral 108 .stateNul "in literal null (expecting 'l')" s c
  | .stateNul => stateLiteral 108 .stateEndValue "in literal null (expecting 'l')" s c
  | .stateError => (s, .scanError)

/-- Go `scanner.reset`. -/
def Scanner.reset : Scanner :=
  { step := .stateBeginValue, endTop := false, parseState := [], err := none, bytes := 0 }

/-- Go `scanner.eof`: the error to report at the end of the input, if any. -/
def Scanner.eof (s : Scanner) : Option GoError :=
  match s.err with
  | some e => some e
  | none =>
    if s.endTop then none
    else
      let s1 := (s.doStep 32).1
      if s1.endTop then none
      else
        match s1.err with
        | some e => some e
        | none => some (.jsonSyntax none "unexpected end of JSON input" s1.bytes)

/-- The loop of `checkValid`: feed the bytes one by one, stop at the first
`scanError`, finish with `eof`. -/
def checkValidLoop : List Nat → Scanner → Option GoError
  | [], s => s.eof
  | c :: cs, s =>
    let r := { s with bytes := s.bytes + 1 }.doStep c
    if r.2 = .scanError then r.1.err else checkValidLoop cs r.1

/-- Go `checkValid`: `none` when the bytes are one well-formed JSON value,
otherwise the syntax error. -/
def checkValid (data : List Nat) : Option GoError :=
  checkValidLoop data Scanner.reset

/-- The bytes of an ASCII text. -/
def ascii (s : String) : List Nat := s.toList.map Char.toNat

/-- The bytes left after `d.scanWhile(scanSkipSpace)`: leading space skipped. -/
def skipSpace : List Nat → List Nat
  | [] => []
  | c :: cs => if isSpace c then skipSpace cs else c :: cs

/-! ## `text/template`

The parser is not modelled: `Env.Parse` hands back the parse tree.  Execution
of the tree follows `exec.go` for text, for an action or an `if` whose
pipeline is a field chain `.a.b` or a boolean constant, with the option
`missingkey=error` that both functions set.  Every other construct is a node
or pipeline `other`, executed by the environment. -/

/-- A pipeline: a field chain on dot (`FieldNode`, at least one identifier),
a boolean constant (`BoolNode`), or anything else. -/
inductive Pipe where
  | field (first : String) (rest : List String)
  | boolConst (b : Bool)
  | other (id : Nat)
  deriving DecidableEq, Repr

/-- A node of the parse tree: `TextNode`, `ActionNode`, `IfNode` (an absent
else branch is the empty list), or anything else. -/
inductive Node where
  | text (s : String)
  | action (pipe : Pipe)
  | ifNode (pipe : Pipe) (list : List Node) (elseList : List Node)
  | other (id : Nat)

/-- A parsed `*template.Template`: its name and the root list of its tree. -/
structure Template where
  name : String
  root : List Node

/-- The program's `funcMap`: the names it registers (`strings.ToUpper`,
`strings.ToLower`). -/
def funcMap : List String := ["ToUpper", "ToLower"]

/-! ## The environment of the program -/

/-- Everything the program takes from outside `vmfuncs.go`: the process
environment, the template parser and the constructs of the template language
that are not modelled, `fmt` for values that are not strings, the object
decoder of `encoding/json`, the protobuf request types with their JSON
decoding, and the compute SDK. -/
structure Env where
  /-- Go `computepb.InsertInstanceRequest`. -/
  InsertReq : Type
  /-- Go `*computepb.DeleteInstanceRequest`. -/
  DeleteReq : Type
  /-- Go `*compute.InstancesClient`. -/
  Client : Type
  /-- Go `*compute.Operation`. -/
  Op : Type
  /-- Go `os.LookupEnv`. -/
  LookupEnv : String → Option String
  /-- Go `template.New(name).Funcs(funcs).Parse(text)`. -/
  Parse : String → List String → String → Except GoError Template
  /-- Evaluation of a pipeline that is not modelled. -/
  evalOther : Nat → Data → Except GoError GoValue
  /-- Execution of a node that is not modelled: the text it writes. -/
  walkOther : Nat → Data → Except GoError String
  /-- Go `fmt.Sprint` of a value that is neither nil nor a string nor a bool. -/
  Sprint : GoValue → String
  /-- Go `decodeState.object` storing into a `map[string]interface{}`: the map
  after decoding and the saved error (a number outside `float64`). -/
  decodeObject : List Nat → GoMap → GoMap × Option GoError
  /-- Go `computepb.InsertInstanceRequest{}`. -/
  zeroInsertReq : InsertReq
  /-- Go `&computepb.DeleteInstanceRequest{}`. -/
  zeroDeleteReq : DeleteReq
  /-- Go `json.Unmarshal(text, &req)` on an insert request: the request
  afterwards and the error returned. -/
  unmarshalInsert : String → InsertReq → InsertReq × Option GoError
  /-- Go `json.Unmarshal(text, &req)` on a delete request pointer. -/
  unmarshalDelete : String → DeleteReq → DeleteReq × Option GoError
  /-- Go `compute.NewInstancesRESTClient(ctx)`. -/
  NewInstancesRESTClient : Context → Except GoError Client
  /-- Go `instancesClient.Insert(ctx, &req)`. -/
  Insert : Client → Context → InsertReq → Except GoError Op
  /-- Go `instancesClient.Delete(ctx, req)`. -/
  Delete : Client → Context → DeleteReq → Except GoError Op
  /-- Go `op.Wait(ctx)`. -/
  Wait : Op → Context → Option GoError

/-- Go `os.Getenv`: the value, or the empty string when the variable is unset. -/
def Env.Getenv (E : Env) (key : String) : String :=
  (E.LookupEnv key).getD ""

/-- An argument of `log.Printf`. -/
inductive LogArg where
  | str (s : String)
  | err (e : GoError)
  deriving DecidableEq, Repr

/-- The effects of the program, as recorded in program order. -/
inductive Event (E : Env) where
  /-- Go `log.Printf(format, args...)`. -/
  | log (format : String) (args : List LogArg)
  /-- Go `w.WriteHeader(statusCode)`. -/
  | writeHeader (statusCode : Nat)
  /-- Go `w.Write(body)`. -/
  | write (body : List Nat)
  /-- Go `io.ReadAll(r.Body)`. -/
  | readAll
  /-- Go `r.Body.Close()`. -/
  | bodyClose
  /-- A handler calling `createInstance` or `destroyInstance` with the data. -/
  | call (fn : String) (data : Data)
  /-- Go `os.Getenv(key)`. -/
  | getenv (key : String)
  /-- Go `Parse` of the template text. -/
  | templateParse (name : String) (text : String)
  /-- Go `Execute` of the parsed template. -/
  | templateExecute (name : String)
  /-- Go `json.Unmarshal` of the rendered text into the request, with the error
  it returned. -/
  | unmarshalRequest (rendered : String) (err : Option GoError)
  /-- Go `compute.NewInstancesRESTClient`, with its result. -/
  | newClient (res : Except GoError E.Client)
  /-- Go `instancesClient.Insert`, with the request passed and the result. -/
  | insert (req : E.InsertReq) (res : Except GoError E.Op)
  /-- Go `instancesClient.Delete`, with the request passed and the result. -/
  | delete (req : E.DeleteReq) (res : Except GoError E.Op)
  /-- Go `op.Wait`, with its result. -/
  | wait (op : E.Op) (res : Option GoError)
  /-- The deferred `instancesClient.Close()`. -/
  | close (client : E.Client)

/-! ## Template execution (`exec.go`, option `missingkey=error`) -/

/-- Go `evalField` on a receiver that came out of the map (an `interface{}`
value): a nil interface is an error, a map is indexed and a missing key is an
error, any other kind has no fields. -/
def evalField (fieldName : String) (receiver : GoValue) : Except GoError GoValue :=
  match receiver with
  | .nil => .error (.external "template" ("nil pointer evaluating interface \x7b\x7d." ++ fieldName))
  | .map m =>
    match m.lookup fieldName with
    | some v => .ok v
    | none => .error (.external "template" ("map has no entry for key " ++ fieldName))
  | _ => .error (.external "template" ("can't evaluate field " ++ fieldName))

/-- The loop of `evalFieldChain` over the identifiers after the first. -/
def evalFieldRest : List String → GoValue → Except GoError GoValue
  | [], receiver => .ok receiver
  | name :: names, receiver =>
    match evalField name receiver with
    | .error e => .error e
    | .ok v => evalFieldRest names v

/-- Go `evalFieldChain` with dot the handler's map: the first identifier indexes
the map (a nil map has no entries), the others go through `evalField`. -/
def evalFieldChain (dot : Data) (first : String) (rest : List String) :
    Except GoError GoValue :=
  match (dot.getD []).lookup first with
  | none => .error (.external "template" ("map has no entry for key " ++ first))
  | some v => evalFieldRest rest v

/-- Go `evalPipeline` for a pipeline of one command. -/
def evalPipeline (E : Env) (dot : Data) : Pipe → Except GoError GoValue
  | .field first rest => evalFieldChain dot first rest
  | .boolConst b => .ok (.bool b)
  | .other id => E.evalOther id dot

/-- Go `isTrue`: the truth value `if` gives to a value. -/
def isTrue : GoValue → Bool
  | .nil => false
  | .bool b => b
  | .float64 bits => !(bits == 0 || bits == 2 ^ 63)
  | .string s => 0 < s.utf8ByteSize
  | .slice xs => 0 < xs.length
  | .map m => 0 < m.length

/-- Go `printValue`: what an action writes for the value of its pipeline.  The
invalid value (a nil interface) prints as `<no value>`. -/
def printValue (E : Env) : GoValue → String
  | .nil => "<no value>"
  | .string s => s
  | .bool b => if b then "true" else "false"
  | v => E.Sprint v

mutual
/-- Go `state.walk` on one node: the text written, or the error that aborts the
execution. -/
def walk (E : Env) (dot : Data) : Node → Except GoError String
  | .text s => .ok s
  | .action pipe =>
    match evalPipeline E dot pipe with
    | .error e => .error e
    | .ok v => .ok (printValue E v)
  | .ifNode pipe list elseList =>
    match evalPipeline E dot pipe with
    | .error e => .error e
    | .ok v => if isTrue v then walkList E dot list else walkList E dot elseList
  | .other id => E.walkOther id dot
/-- Go `state.walk` on a `ListNode`: the nodes in order, up to the first error. -/
def walkList (E : Env) (dot : Data) : List Node → Except GoError String
  | [] => .ok ""
  | n :: ns =>
    match walk E dot n with
    | .error e => .error e
    | .ok s =>
      match walkList E dot ns with
      | .error e => .error e
      | .ok t => .ok (s ++ t)
end

/-- Go `t.Option("missingkey=error").Execute(&tpl, data)`: the rendered text. -/
def Execute (E : Env) (t : Template) (data : Data) : Except GoError String :=
  walkList E data t.root

/-! ## `json.Unmarshal` into the handler's map -/

/-- The panic message of the decoder when the scanner and the decoder
disagree; it cannot occur after `checkValid` has accepted the input. -/
def phasePanicMsg : String := "JSON decoder out of sync - data changing underfoot?"

/-- Go `json.Unmarshal(data, &v)` for `v` of type `map[string]interface{}`: the
map afterwards and the error returned.  A syntax error from `checkValid`
leaves the map alone.  Otherwise the first byte after leading space selects
the decoder: an object is decoded into the map (made first when nil), `null`
sets the map to nil without error, and an array, a string, a boolean or a
number cannot be stored in a map and give an `UnmarshalTypeError`. -/
def Unmarshal (E : Env) (data : List Nat) (v : Data) : Data × Option GoError :=
  match checkValid data with
  | some err => (v, some err)
  | none =>
    match skipSpace data with
    | [] => (v, some (.errorf phasePanicMsg))
    | c :: _ =>
      if c = 123 then
        let r := E.decodeObject data (v.getD [])
        (some r.1, r.2)
      else if c = 91 then (v, some (.jsonType "array"))
      else if c = 110 then (none, none)
      else if c = 116 ∨ c = 102 then (v, some (.jsonType "bool"))
      else if c = 34 then (v, some (.jsonType "string"))
      else (v, some (.jsonType "number"))

/-! ## The program: `vmfuncs.go` -/

/-- Go `createInstance(ctx, data)`: the error returned (`none` is nil) and the
events performed.  The deferred `Close` runs on every return after the client
was created. -/
def createInstance (E : Env) (ctx : Context) (data : Data) :
    Option GoError × List (Event E) :=
  let reqTemplateEnv := E.Getenv "VM_REQ_TEMPLATE"
  let t1 : List (Event E) := [.getenv "VM_REQ_TEMPLATE"]
  if reqTemplateEnv.utf8ByteSize < 1 then
    (some (.errorf "VM_REQ_TEMPLATE not set"), t1)
  else
    let t2 := t1 ++ [.templateParse "vm-template" reqTemplateEnv]
    match E.Parse "vm-template" funcMap reqTemplateEnv with
    | .error err => (some (.wrapf "NewInstancesRESTClient" err), t2)
    | .ok reqTemplate =>
      let t3 := t2 ++ [.templateExecute "vm-template"]
      match Execute E reqTemplate data with
      | .error err => (some (.wrapf "NewInstancesRESTClient" err), t3)
      | .ok tpl =>
        let dec := E.unmarshalInsert tpl E.zeroInsertReq
        let req := dec.1
        let t4 := t3 ++ [.unmarshalRequest tpl dec.2]
        match E.NewInstancesRESTClient ctx with
        | .error err =>
          (some (.wrapf "NewInstancesRESTClient" err), t4 ++ [.newClient (.error err)])
        | .ok instancesClient =>
          let t5 := t4 ++ [.newClient (.ok instancesClient)]
          match E.Insert instancesClient ctx req with
          | .error err =>
            (some (.wrapf "unable to create instance" err),
              t5 ++ [.insert req (.error err), .close instancesClient])
          | .ok op =>
            let t6 := t5 ++ [.insert req (.ok op)]
            match E.Wait op ctx with
            | some err =>
              (some (.wrapf "unable to wait for the operation" err),
                t6 ++ [.wait op (some err), .close instancesClient])
            | none =>
              (none,
                t6 ++ [.wait op none, .log "Instance created\n" [], .close instancesClient])

/-- Go `destroyInstance(ctx, data)`: the error returned (`none` is nil) and
the events performed. -/
def destroyInstance (E : Env) (ctx : Context) (data : Data) :
    Option GoError × List (Event E) :=
  let killTemplateEnv := E.Getenv "VM_KILL_TEMPLATE"
  let t1 : List (Event E) := [.getenv "VM_KILL_TEMPLATE"]
  if killTemplateEnv.utf8ByteSize < 1 then
    (some (.errorf "VM_KILL_TEMPLATE not set"), t1)
  else
    let t2 := t1 ++ [.templateParse "vm-kill-template" killTemplateEnv]
    match E.Parse "vm-kill-template" funcMap killTemplateEnv with
    | .error err => (some (.wrapf "NewInstancesRESTClient" err), t2)
    | .ok reqTemplate =>
      let t3 := t2 ++ [.templateExecute "vm-kill-template"]
      match Execute E reqTemplate data with
      | .error err => (some (.wrapf "NewInstancesRESTClient" err), t3)
      | .ok tpl =>
        let dec := E.unmarshalDelete tpl E.zeroDeleteReq
        let req := dec.1
        let t4 := t3 ++ [.unmarshalRequest tpl dec.2]
        match E.NewInstancesRESTClient ctx with
        | .error err =>
          (some (.wrapf "NewInstancesRESTClient" err), t4 ++ [.newClient (.error err)])
        | .ok instancesClient =>
          let t5 := t4 ++ [.newClient (.ok instancesClient)]
          match E.Delete instancesClient ctx req with
          | .error err =>
            (some (.wrapf "unable to delete instance" err),
              t5 ++ [.delete req (.error err), .close instancesClient])
          | .ok op =>
            let t6 := t5 ++ [.delete req (.ok op)]
            match E.Wait op ctx with
            | some err =>
              (some (.wrapf "unable to wait for the operation" err),
                t6 ++ [.wait op (some err), .close instancesClient])
            | none =>
              (none,
                t6 ++ [.wait op none, .log "Instance deleted\n" [], .close instancesClient])

/-- Go `launchVM(w, r)`: the events the handler performs, those of
`createInstance` included. -/
def launchVM (E : Env) (r : Request) : List (Event E) :=
  if r.Method ≠ MethodPost then
    [.log "Bad Method %s\n" [.str r.Method], .writeHeader StatusBadRequest]
  else if r.Header.Get "Content-Type" ≠ "application/json" then
    [.log "Bad Content Type %s\n" [.str (r.Header.Get "Content-Type")],
      .writeHeader StatusBadRequest]
  else
    match r.Body with
    | .error err =>
      [.readAll, .log "Bad Post Content %v\n" [.err err], .writeHeader StatusBadRequest]
    | .ok postContent =>
      match Unmarshal E postContent (some []) with
      | (_, some err) =>
        [.readAll, .bodyClose, .log "Bad Post Content Parse %v\n" [.err err],
          .writeHeader StatusBadRequest]
      | (data, none) =>
        let res := createInstance E r.ctx data
        [.readAll, .bodyClose, .call "createInstance" data] ++ res.2 ++
          match res.1 with
          | some err =>
            [.log "Launch VM Error %v\n" [.err err], .writeHeader StatusInternalServerError]
          | none => []

/-- Go `killVM(w, r)`: the events the handler performs, those of
`destroyInstance` included. -/
def killVM (E : Env) (r : Request) : List (Event E) :=
  if r.Method ≠ MethodPost then
    [.log "Bad Method %s\n" [.str r.Method], .writeHeader StatusBadRequest]
  else if r.Header.Get "Content-Type" ≠ "application/json" then
    [.log "Bad Content Type %s\n" [.str (r.Header.Get "Content-Type")],
      .writeHeader StatusBadRequest]
  else
    match r.Body with
    | .error err =>
      [.readAll, .log "Bad Post Content %v\n" [.err err], .writeHeader StatusBadRequest]
    | .ok postContent =>
      match Unmarshal E postContent (some []) with
      | (_, some err) =>
        [.readAll, .bodyClose, .log "Bad Post Content Parse %v\n" [.err err],
          .writeHeader StatusBadRequest]
      | (data, none) =>
        let res := destroyInstance E r.ctx data
        [.readAll, .bodyClose, .call "destroyInstance" data] ++ res.2 ++
          match res.1 with
          | some err =>
            [.log "Kill VM Error %v\n" [.err err], .writeHeader StatusInternalServerError]
          | none => []

/-! ## Observations on a run -/

/-- The status codes passed to `WriteHeader`, in order. -/
def statusCodes {E : Env} : List (Event E) → List Nat
  | [] => []
  | .writeHeader c :: es => c :: statusCodes es
  | _ :: es => statusCodes es

/-- The bodies passed to `Write`, in order. -/
def bodyWrites {E : Env} : List (Event E) → List (List Nat)
  | [] => []
  | .write b :: es => b :: bodyWrites es
  | _ :: es => bodyWrites es

/-- The names of the functions the handler called
(`createInstance`, `destroyInstance`), in order. -/
def calls {E : Env} : List (Event E) → List String
  | [] => []
  | .call fn _ :: es => fn :: calls es
  | _ :: es => calls es

/-- Whether the event is a call into the SDK. -/
def Event.isSdk {E : Env} : Event E → Bool
  | .newClient _ => true
  | .insert _ _ => true
  | .delete _ _ => true
  | .wait _ _ => true
  | .close _ => true
  | _ => false

/-- The SDK calls of a run, in order. -/
def sdkCalls {E : Env} (t : List (Event E)) : List (Event E) :=
  t.filter Event.isSdk

/-- The status `net/http` sends: the first code given to `WriteHeader`, or
200 when the handler returns without calling it. -/
def responseStatus {E : Env} (t : List (Event E)) : Nat :=
  (statusCodes t).headD 200

/-! ## References to a key in a template -/

mutual
/-- Whether the node contains, anywhere, a field chain on dot that starts with
`key`. -/
def Node.mentionsKey (key : String) : Node → Bool
  | .text _ => false
  | .action (.field first _) => first == key
  | .action _ => false
  | .ifNode (.field first _) list elseList =>
    first == key || mentionsKeyList key list || mentionsKeyList key elseList
  | .ifNode _ list elseList => mentionsKeyList key list || mentionsKeyList key elseList
  | .other _ => false
/-- Whether some node of the list mentions the key. -/
def mentionsKeyList (key : String) : List Node → Bool
  | [] => false
  | n :: ns => n.mentionsKey key || mentionsKeyList key ns
end

/-- Whether the node itself, when executed, evaluates a field chain on dot
that starts with `key`: an action or the condition of an `if`. -/
def Node.evaluatesKey (key : String) : Node → Bool
  | .action (.field first _) => first == key
  | .ifNode (.field first _) _ _ => first == key
  | _ => false

/-- Whether the root list has, outside every branch, a node that evaluates a
field chain starting with `key`. -/
def evaluatesKey (key : String) (root : List Node) : Bool :=
  root.any (Node.evaluatesKey key)

/-! ## Example environment -/

/-- An environment for the examples: the variables `vars`, a parser given as
a table `parse` from template text to tree, and an SDK whose three calls fail
with the given errors (or succeed when `none`).  A request is the rendered
text when that is well-formed JSON; otherwise the decoder reports the syntax
error and leaves the request as it was. -/
def exampleEnv (vars : String → Option String) (parse : String → Option (List Node))
    (clientErr insertErr waitErr : Option GoError) : Env where
  InsertReq := String
  DeleteReq := String
  Client := Unit
  Op := Unit
  LookupEnv := vars
  Parse := fun name _ text =>
    match parse text with
    | some root => .ok ⟨name, root⟩
    | none => .error (.external "template" "parse error")
  evalOther := fun _ _ => .error (.external "template" "not modelled")
  walkOther := fun _ _ => .error (.external "template" "not modelled")
  Sprint := fun _ => ""
  decodeObject := fun _ m => (m, none)
  zeroInsertReq := ""
  zeroDeleteReq := ""
  unmarshalInsert := fun text req =>
    match checkValid (ascii text) with
    | some e => (req, some e)
    | none => (text, none)
  unmarshalDelete := fun text req =>
    match checkValid (ascii text) with
    | some e => (req, some e)
    | none => (text, none)
  NewInstancesRESTClient := fun _ =>
    match clientErr with
    | some e => .error e
    | none => .ok ()
  Insert := fun _ _ _ =>
    match insertErr with
    | some e => .error e
    | none => .ok ()
  Delete := fun _ _ _ =>
    match insertErr with
    | some e => .error e
    | none => .ok ()
  Wait := fun _ _ => waitErr

/-- No variable is set, no template parses, the SDK succeeds. -/
def emptyEnv : Env :=
  exampleEnv (fun _ => none) (fun _ => none) none none none

/-- The template text `{{if false}}{{.name}}{{end}}`. -/
def guardedText : String :=
  "\x7b\x7bif false\x7d\x7d\x7b\x7b.name\x7d\x7d\x7b\x7bend\x7d\x7d"

/-- The parse tree of `guardedText`: an `if` on the constant `false` around
the action `.name`, without else branch. -/
def guardedTree : List Node :=
  [.ifNode (.boolConst false) [.action (.field "name" [])] []]

/-- The template text `{{.name}}`. -/
def plainText : String := "\x7b\x7b.name\x7d\x7d"

/-- The parse tree of `plainText`: the action `.name`. -/
def plainTree : List Node := [.action (.field "name" [])]

/-- The parser table of the examples. -/
def exampleParse (text : String) : Option (List Node) :=
  if text = guardedText then some guardedTree
  else if text = plainText then some plainTree
  else none

/-- Both template variables hold `text`, the SDK succeeds. -/
def templateEnv (text : String) : Env :=
  exampleEnv
    (fun key =>
      if key = "VM_REQ_TEMPLATE" ∨ key = "VM_KILL_TEMPLATE" then some text else none)
    exampleParse none none none

/-- A POST request with a JSON content type and the given body. -/
def jsonPost (body : String) : Request :=
  ⟨"POST", [("Content-Type", ["application/json"])], .ok (ascii body), 0⟩

/-! ## Lemmas on the structure of a run -/

/-- A Go string has length below one exactly when it is empty. -/
theorem utf8ByteSize_lt_one (s : String) : s.utf8ByteSize < 1 ↔ s = "" := by
  cases s with
  | mk cs =>
    cases cs with
    | nil => exact ⟨fun _ => rfl, fun _ => by decide⟩
    | cons c cs =>
      have := Char.utf8Size_pos c
      simp [String.ext_iff]
      omega

/-- The status codes of two runs in sequence. -/
theorem statusCodes_append {E : Env} (a b : List (Event E)) :
    statusCodes (a ++ b) = statusCodes a ++ statusCodes b := by
  induction a with
  | nil => rfl
  | cons e es ih => cases e <;> simp [statusCodes, ih]

/-- The calls of two runs in sequence. -/
theorem calls_append {E : Env} (a b : List (Event E)) :
    calls (a ++ b) = calls a ++ calls b := by
  induction a with
  | nil => rfl
  | cons e es ih => cases e <;> simp [calls, ih]

/-- The body writes of two runs in sequence. -/
theorem bodyWrites_append {E : Env} (a b : List (Event E)) :
    bodyWrites (a ++ b) = bodyWrites a ++ bodyWrites b := by
  induction a with
  | nil => rfl
  | cons e es ih => cases e <;> simp [bodyWrites, ih]

/-- Function `createInstance` writes no status, no body, and calls neither
handler function. -/
theorem createInstance_quiet (E : Env) (ctx : Context) (data : Data) :
    statusCodes (createInstance E ctx data).2 = [] ∧
    calls (createInstance E ctx data).2 = [] ∧
    bodyWrites (createInstance E ctx data).2 = [] := by
  unfold createInstance
  simp only []
  repeat' split
  all_goals simp [statusCodes, calls, bodyWrites]

/-- Function `destroyInstance` writes no status, no body, and calls neither
handler function. -/
theorem destroyInstance_quiet (E : Env) (ctx : Context) (data : Data) :
    statusCodes (destroyInstance E ctx data).2 = [] ∧
    calls (destroyInstance E ctx data).2 = [] ∧
    bodyWrites (destroyInstance E ctx data).2 = [] := by
  unfold destroyInstance
  simp only []
  repeat' split
  all_goals simp [statusCodes, calls, bodyWrites]

/-- The events of `launchVM` for a request that passed the three checks. -/
theorem launchVM_accepted (E : Env) (r : Request) (b : List Nat) (data : Data)
    (hm : r.Method = MethodPost) (hct : r.Header.Get "Content-Type" = "application/json")
    (hb : r.Body = .ok b) (hu : Unmarshal E b (some []) = (data, none)) :
    launchVM E r = [.readAll, .bodyClose, .call "createInstance" data] ++
      (createInstance E r.ctx data).2 ++
      match (createInstance E r.ctx data).1 with
      | some err =>
        [.log "Launch VM Error %v\n" [.err err], .writeHeader StatusInternalServerError]
      | none => [] := by
  simp [launchVM, hm, hct, hb, hu]

/-- The events of `killVM` for a request that passed the three checks. -/
theorem killVM_accepted (E : Env) (r : Request) (b : List Nat) (data : Data)
    (hm : r.Method = MethodPost) (hct : r.Header.Get "Content-Type" = "application/json")
    (hb : r.Body = .ok b) (hu : Unmarshal E b (some []) = (data, none)) :
    killVM E r = [.readAll, .bodyClose, .call "destroyInstance" data] ++
      (destroyInstance E r.ctx data).2 ++
      match (destroyInstance E r.ctx data).1 with
      | some err =>
        [.log "Kill VM Error %v\n" [.err err], .writeHeader StatusInternalServerError]
      | none => [] := by
  simp [killVM, hm, hct, hb, hu]

/-- The events of `launchVM` when the body is read but not decoded. -/
theorem launchVM_undecodable (E : Env) (r : Request) (b : List Nat) (data : Data) (err : GoError)
    (hm : r.Method = MethodPost) (hct : r.Header.Get "Content-Type" = "application/json")
    (hb : r.Body = .ok b) (hu : Unmarshal E b (some []) = (data, some err)) :
    launchVM E r = [.readAll, .bodyClose, .log "Bad Post Content Parse %v\n" [.err err],
      .writeHeader StatusBadRequest] := by
  simp [launchVM, hm, hct, hb, hu]

/-- The events of `killVM` when the body is read but not decoded. -/
theorem killVM_undecodable (E : Env) (r : Request) (b : List Nat) (data : Data) (err : GoError)
    (hm : r.Method = MethodPost) (hct : r.Header.Get "Content-Type" = "application/json")
    (hb : r.Body = .ok b) (hu : Unmarshal E b (some []) = (data, some err)) :
    killVM E r = [.readAll, .bodyClose, .log "Bad Post Content Parse %v\n" [.err err],
      .writeHeader StatusBadRequest] := by
  simp [killVM, hm, hct, hb, hu]

/-- The status `launchVM` writes for a request that passed the checks. -/
theorem statusCodes_launchVM_accepted (E : Env) (r : Request) (b : List Nat) (data : Data)
    (hm : r.Method = MethodPost) (hct : r.Header.Get "Content-Type" = "application/json")
    (hb : r.Body = .ok b) (hu : Unmarshal E b (some []) = (data, none)) :
    statusCodes (launchVM E r) =
      match (createInstance E r.ctx data).1 with
      | some _ => [500]
      | none => [] := by
  rw [launchVM_accepted E r b data hm hct hb hu]
  simp only [statusCodes_append, (createInstance_quiet E r.ctx data).1]
  cases (createInstance E r.ctx data).1 <;>
    simp [statusCodes, StatusInternalServerError]

/-- The status `killVM` writes for a request that passed the checks. -/
theorem statusCodes_killVM_accepted (E : Env) (r : Request) (b : List Nat) (data : Data)
    (hm : r.Method = MethodPost) (hct : r.Header.Get "Content-Type" = "application/json")
    (hb : r.Body = .ok b) (hu : Unmarshal E b (some []) = (data, none)) :
    statusCodes (killVM E r) =
      match (destroyInstance E r.ctx data).1 with
      | some _ => [500]
      | none => [] := by
  rw [killVM_accepted E r b data hm hct hb hu]
  simp only [statusCodes_append, (destroyInstance_quiet E r.ctx data).1]
  cases (destroyInstance E r.ctx data).1 <;>
    simp [statusCodes, StatusInternalServerError]

/-- When `createInstance` returns nil: the variable is set and every step
succeeded. -/
theorem createInstance_nil_iff (E : Env) (ctx : Context) (data : Data) :
    (createInstance E ctx data).1 = none ↔
      ¬ (E.Getenv "VM_REQ_TEMPLATE").utf8ByteSize < 1 ∧
      ∃ t tpl c op,
        E.Parse "vm-template" funcMap (E.Getenv "VM_REQ_TEMPLATE") = .ok t ∧
        Execute E t data = .ok tpl ∧
        E.NewInstancesRESTClient ctx = .ok c ∧
        E.Insert c ctx (E.unmarshalInsert tpl E.zeroInsertReq).1 = .ok op ∧
        E.Wait op ctx = none := by
  unfold createInstance
  simp only []
  by_cases henv : (E.Getenv "VM_REQ_TEMPLATE").utf8ByteSize < 1
  · simp [henv]
  · cases hp : E.Parse "vm-template" funcMap (E.Getenv "VM_REQ_TEMPLATE") with
    | error e => simp [henv, hp]
    | ok t =>
      cases hx : Execute E t data with
      | error e => simp [henv, hp, hx]
      | ok tpl =>
        cases hc : E.NewInstancesRESTClient ctx with
        | error e => simp [henv, hp, hx, hc]
        | ok c =>
          cases hi : E.Insert c ctx (E.unmarshalInsert tpl E.zeroInsertReq).1 with
          | error e => simp [henv, hp, hx, hc, hi]
          | ok op =>
            cases hw : E.Wait op ctx with
            | some e => simp [henv, hp, hx, hc, hi, hw]
            | none => simp [henv, hp, hx, hc, hi, hw]

/-- When `destroyInstance` returns nil: the variable is set and every step
succeeded. -/
theorem destroyInstance_nil_iff (E : Env) (ctx : Context) (data : Data) :
    (destroyInstance E ctx data).1 = none ↔
      ¬ (E.Getenv "VM_KILL_TEMPLATE").utf8ByteSize < 1 ∧
      ∃ t tpl c op,
        E.Parse "vm-kill-template" funcMap (E.Getenv "VM_KILL_TEMPLATE") = .ok t ∧
        Execute E t data = .ok tpl ∧
        E.NewInstancesRESTClient ctx = .ok c ∧
        E.Delete c ctx (E.unmarshalDelete tpl E.zeroDeleteReq).1 = .ok op ∧
        E.Wait op ctx = none := by
  unfold destroyInstance
  simp only []
  by_cases henv : (E.Getenv "VM_KILL_TEMPLATE").utf8ByteSize < 1
  · simp [henv]
  · cases hp : E.Parse "vm-kill-template" funcMap (E.Getenv "VM_KILL_TEMPLATE") with
    | error e => simp [henv, hp]
    | ok t =>
      cases hx : Execute E t data with
      | error e => simp [henv, hp, hx]
      | ok tpl =>
        cases hc : E.NewInstancesRESTClient ctx with
        | error e => simp [henv, hp, hx, hc]
        | ok c =>
          cases hi : E.Delete c ctx (E.unmarshalDelete tpl E.zeroDeleteReq).1 with
          | error e => simp [henv, hp, hx, hc, hi]
          | ok op =>
            cases hw : E.Wait op ctx with
            | some e => simp [henv, hp, hx, hc, hi, hw]
            | none => simp [henv, hp, hx, hc, hi, hw]

/-- The two ways `launchVM` ends: rejected with 400 before `createInstance`,
or accepted, and then the status is decided by the error of `createInstance`.
It never writes a body. -/
theorem launchVM_status_cases (E : Env) (r : Request) :
    (statusCodes (launchVM E r) = [400] ∧ bodyWrites (launchVM E r) = [] ∧
      ¬ (r.Method = MethodPost ∧ r.Header.Get "Content-Type" = "application/json" ∧
        ∃ b data, r.Body = .ok b ∧ Unmarshal E b (some []) = (data, none))) ∨
    (∃ b data, r.Method = MethodPost ∧ r.Header.Get "Content-Type" = "application/json" ∧
      r.Body = .ok b ∧ Unmarshal E b (some []) = (data, none) ∧
      bodyWrites (launchVM E r) = [] ∧
      statusCodes (launchVM E r) =
        match (createInstance E r.ctx data).1 with
        | some _ => [500]
        | none => []) := by
  by_cases hm : r.Method = MethodPost
  · by_cases hct : r.Header.Get "Content-Type" = "application/json"
    · cases hb : r.Body with
      | error err =>
        left
        simp [launchVM, hm, hct, hb, statusCodes, bodyWrites, StatusBadRequest]
      | ok b =>
        cases hu : Unmarshal E b (some []) with
        | mk data oerr =>
          cases oerr with
          | some err =>
            left
            rw [launchVM_undecodable E r b data err hm hct hb hu]
            simp [statusCodes, bodyWrites, StatusBadRequest, hu]
          | none =>
            right
            refine ⟨b, data, hm, hct, rfl, hu, ?_,
              statusCodes_launchVM_accepted E r b data hm hct hb hu⟩
            rw [launchVM_accepted E r b data hm hct hb hu]
            simp only [bodyWrites_append, (createInstance_quiet E r.ctx data).2.2]
            cases (createInstance E r.ctx data).1 <;> simp [bodyWrites]
    · left
      simp [launchVM, hm, hct, statusCodes, bodyWrites, StatusBadRequest]
  · left
    simp [launchVM, hm, statusCodes, bodyWrites, StatusBadRequest]

/-- The two ways `killVM` ends: rejected with 400 before `destroyInstance`,
or accepted, and then the status is decided by the error of `destroyInstance`.
It never writes a body. -/
theorem killVM_status_cases (E : Env) (r : Request) :
    (statusCodes (killVM E r) = [400] ∧ bodyWrites (killVM E r) = [] ∧
      ¬ (r.Method = MethodPost ∧ r.Header.Get "Content-Type" = "application/json" ∧
        ∃ b data, r.Body = .ok b ∧ Unmarshal E b (some []) = (data, none))) ∨
    (∃ b data, r.Method = MethodPost ∧ r.Header.Get "Content-Type" = "application/json" ∧
      r.Body = .ok b ∧ Unmarshal E b (some []) = (data, none) ∧
      bodyWrites (killVM E r) = [] ∧
      statusCodes (killVM E r) =
        match (destroyInstance E r.ctx data).1 with
        | some _ => [500]
        | none => []) := by
  by_cases hm : r.Method = MethodPost
  · by_cases hct : r.Header.Get "Content-Type" = "application/json"
    · cases hb : r.Body with
      | error err =>
        left
        simp [killVM, hm, hct, hb, statusCodes, bodyWrites, StatusBadRequest]
      | ok b =>
        cases hu : Unmarshal E b (some []) with
        | mk data oerr =>
          cases oerr with
          | some err =>
            left
            rw [killVM_undecodable E r b data err hm hct hb hu]
            simp [statusCodes, bodyWrites, StatusBadRequest, hu]
          | none =>
            right
            refine ⟨b, data, hm, hct, rfl, hu, ?_,
              statusCodes_killVM_accepted E r b data hm hct hb hu⟩
            rw [killVM_accepted E r b data hm hct hb hu]
            simp only [bodyWrites_append, (destroyInstance_quiet E r.ctx data).2.2]
            cases (destroyInstance E r.ctx data).1 <;> simp [bodyWrites]
    · left
      simp [killVM, hm, hct, statusCodes, bodyWrites, StatusBadRequest]
  · left
    simp [killVM, hm, statusCodes, bodyWrites, StatusBadRequest]

/-- A node that evaluates `.key` fails on a map without the key. -/
theorem walk_missing_key (E : Env) (dot : Data) (key : String) (n : Node)
    (hev : n.evaluatesKey key = true) (hmiss : (dot.getD []).lookup key = none) :
    ∃ e, walk E dot n = .error e := by
  cases n with
  | text s => simp [Node.evaluatesKey] at hev
  | other id => simp [Node.evaluatesKey] at hev
  | action pipe =>
    cases pipe with
    | field first rest =>
      have hk : first = key := by simpa [Node.evaluatesKey] using hev
      subst hk
      simp [walk, evalPipeline, evalFieldChain, hmiss]
    | boolConst b => simp [Node.evaluatesKey] at hev
    | other id => simp [Node.evaluatesKey] at hev
  | ifNode pipe list elseList =>
    cases pipe with
    | field first rest =>
      have hk : first = key := by simpa [Node.evaluatesKey] using hev
      subst hk
      simp [walk, evalPipeline, evalFieldChain, hmiss]
    | boolConst b => simp [Node.evaluatesKey] at hev
    | other id => simp [Node.evaluatesKey] at hev

/-- A root list with a node that evaluates `.key` fails on a map without the
key: either an earlier node fails, or that node does. -/
theorem walkList_missing_key (E : Env) (dot : Data) (key : String) (root : List Node)
    (hev : evaluatesKey key root = true) (hmiss : (dot.getD []).lookup key = none) :
    ∃ e, walkList E dot root = .error e := by
  induction root with
  | nil => simp [evaluatesKey] at hev
  | cons n ns ih =>
    cases hw : walk E dot n with
    | error e => exact ⟨e, by simp [walkList, hw]⟩
    | ok s =>
      have hn : n.evaluatesKey key = false := by
        cases hb : n.evaluatesKey key with
        | false => rfl
        | true =>
          obtain ⟨e, he⟩ := walk_missing_key E dot key n hb hmiss
          rw [he] at hw
          cases hw
      have hns : evaluatesKey key ns = true := by
        simpa [evaluatesKey, hn] using hev
      obtain ⟨e, he⟩ := ih hns
      exact ⟨e, by simp [walkList, hw, he]⟩

/-- A body of nothing but space is rejected by the scanner: it stays in
`stateBeginValue` and `eof` reports the unexpected end. -/
theorem checkValidLoop_space (cs : List Nat) (n : Nat) (h : skipSpace cs = []) :
    checkValidLoop cs { Scanner.reset with bytes := n } ≠ none := by
  induction cs generalizing n with
  | nil =>
    simp [checkValidLoop, Scanner.eof, Scanner.reset, Scanner.doStep, stateBeginValue, isSpace]
  | cons c cs ih =>
    have hc : isSpace c = true := by
      cases hsp : isSpace c with
      | true => rfl
      | false => simp [skipSpace, hsp] at h
    have hcs : skipSpace cs = [] := by simpa [skipSpace, hc] using h
    have := ih (n + 1) hcs
    simpa [checkValidLoop, Scanner.reset, Scanner.doStep, stateBeginValue, hc] using this

/-- After `checkValid` has accepted the input, a byte is left once the
leading space is skipped: the decoder finds the value it expects. -/
theorem skipSpace_ne_nil_of_valid (b : List Nat) (hv : checkValid b = none) :
    skipSpace b ≠ [] := by
  intro h
  exact checkValidLoop_space b 0 h hv

/-- The first byte after leading space of an input the scanner accepts opens
an object, an array, a string, a number, or one of the three literals. -/
theorem checkValidLoop_first (cs : List Nat) (n : Nat)
    (hv : checkValidLoop cs { Scanner.reset with bytes := n } = none) :
    ∃ c rest, skipSpace cs = c :: rest ∧
      (c = 123 ∨ c = 110 ∨ c = 91 ∨ c = 34 ∨ c = 116 ∨ c = 102 ∨ c = 45 ∨
        isDigit c = true) := by
  induction cs generalizing n with
  | nil => exact absurd hv (checkValidLoop_space [] n rfl)
  | cons c cs ih =>
    cases hsp : isSpace c with
    | true =>
      have hv2 : checkValidLoop cs { Scanner.reset with bytes := n + 1 } = none := by
        simpa [checkValidLoop, Scanner.reset, Scanner.doStep, stateBeginValue, hsp] using hv
      obtain ⟨d, rest, hs, hd⟩ := ih (n + 1) hv2
      exact ⟨d, rest, by simp [skipSpace, hsp, hs], hd⟩
    | false =>
      refine ⟨c, cs, by simp [skipSpace, hsp], ?_⟩
      by_contra hno
      simp only [not_or] at hno
      obtain ⟨h1, h2, h3, h4, h5, h6, h7, h8⟩ := hno
      have h9 : c ≠ 48 := by
        intro h; subst h; simp [isDigit] at h8
      have h10 : ¬ (49 ≤ c ∧ c ≤ 57) := by
        intro h; apply h8; simp [isDigit]; omega
      simp [checkValidLoop, Scanner.reset, Scanner.doStep, stateBeginValue, hsp,
        h1, h2, h3, h4, h5, h6, h7, h9, h10, Scanner.error] at hv

/-- The kinds of a body `checkValid` accepts, by its first byte after leading
space: object, `null`, array, string, boolean, number. -/
theorem first_byte_of_valid (b : List Nat) (hv : checkValid b = none) :
    ∃ c rest, skipSpace b = c :: rest ∧
      (c = 123 ∨ c = 110 ∨ c = 91 ∨ c = 34 ∨ c = 116 ∨ c = 102 ∨ c = 45 ∨
        isDigit c = true) :=
  checkValidLoop_first b 0 hv

/-! ## Theorems -/


/-- C1: for every request whose method is not POST, `launchVM` and `killVM`
log the method, write status 400 and do nothing else: the body is not read,
no template is parsed or executed, `createInstance` / `destroyInstance` is not
called and no SDK call is made, whatever the header and the body are. -/
theorem non_post_rejected (E : Env) (r : Request) (h : r.Method ≠ MethodPost) :
    launchVM E r = [.log "Bad Method %s\n" [.str r.Method], .writeHeader 400] ∧
    killVM E r = [.log "Bad Method %s\n" [.str r.Method], .writeHeader 400] ∧
    statusCodes (launchVM E r) = [400] ∧ statusCodes (killVM E r) = [400] ∧
    calls (launchVM E r) = [] ∧ calls (killVM E r) = [] ∧
    sdkCalls (launchVM E r) = [] ∧ sdkCalls (killVM E r) = [] := by
  simp [launchVM, killVM, h, StatusBadRequest, statusCodes, calls, sdkCalls, Event.isSdk]

/-- Witness for C1: a GET request with a JSON content type and a valid body. -/
theorem non_post_rejected_witness :
    (("GET" : String) ≠ MethodPost) ∧
    launchVM emptyEnv ⟨"GET", [("Content-Type", ["application/json"])], .ok (ascii "null"), 0⟩
      = [.log "Bad Method %s\n" [.str "GET"], .writeHeader 400] :=
  ⟨by decide, (non_post_rejected emptyEnv
    ⟨"GET", [("Content-Type", ["application/json"])], .ok (ascii "null"), 0⟩ (by decide)).1⟩

/-- C2: for every POST request whose `Content-Type` value, as `Header.Get`
returns it, is anything other than exactly `application/json`, `launchVM` and
`killVM` log the value, write status 400 and do nothing else, so
`createInstance` / `destroyInstance` is never called; an absent header reads
as the empty string and is rejected in the same way.  For every POST request
whose value is exactly `application/json` the check lets the request through:
the next thing the handler does is read the body. -/
theorem content_type_checked (E : Env) (r : Request) (hm : r.Method = MethodPost) :
    (r.Header.Get "Content-Type" ≠ "application/json" →
      launchVM E r = [.log "Bad Content Type %s\n" [.str (r.Header.Get "Content-Type")],
        .writeHeader 400] ∧
      killVM E r = [.log "Bad Content Type %s\n" [.str (r.Header.Get "Content-Type")],
        .writeHeader 400] ∧
      statusCodes (launchVM E r) = [400] ∧ statusCodes (killVM E r) = [400] ∧
      calls (launchVM E r) = [] ∧ calls (killVM E r) = []) ∧
    (r.Header.lookup "Content-Type" = none →
      r.Header.Get "Content-Type" ≠ "application/json") ∧
    (r.Header.Get "Content-Type" = "application/json" →
      (∃ rest, launchVM E r = .readAll :: rest) ∧ (∃ rest, killVM E r = .readAll :: rest)) := by
  refine ⟨fun h => ?_, fun h => ?_, fun h => ⟨?_, ?_⟩⟩
  · simp [launchVM, killVM, hm, h, StatusBadRequest, statusCodes, calls]
  · simp [Header.Get, h]
  · simp only [launchVM, hm, h]
    simp only [ne_eq, not_true_eq_false, if_false]
    repeat' split
    all_goals simp
  · simp only [killVM, hm, h]
    simp only [ne_eq, not_true_eq_false, if_false]
    repeat' split
    all_goals simp

/-- Witness for C2: a POST request whose content type carries a charset
parameter is answered 400. -/
theorem content_type_checked_witness :
    (⟨"POST", [("Content-Type", ["application/json; charset=utf-8"])],
        .ok (ascii "null"), 0⟩ : Request).Method = MethodPost ∧
    statusCodes (launchVM emptyEnv ⟨"POST",
      [("Content-Type", ["application/json; charset=utf-8"])], .ok (ascii "null"), 0⟩) = [400] :=
  ⟨rfl, ((content_type_checked emptyEnv ⟨"POST",
      [("Content-Type", ["application/json; charset=utf-8"])], .ok (ascii "null"), 0⟩ rfl).1
      (by decide)).2.2.1⟩

/-- C3: for every POST request with content type `application/json`, if the
body cannot be read, or if it is read and `checkValid` (the syntax check
`json.Unmarshal` runs first) rejects it, `launchVM` and `killVM` log the
error, write status 400 and stop: `createInstance` / `destroyInstance` is not
called and no SDK call is made.  The empty body is rejected by `checkValid`
("unexpected end of JSON input"), and so is every body of space only. -/
theorem malformed_body_rejected (E : Env) (r : Request) (hm : r.Method = MethodPost)
    (hct : r.Header.Get "Content-Type" = "application/json") :
    (∀ err, r.Body = .error err →
      launchVM E r = [.readAll, .log "Bad Post Content %v\n" [.err err], .writeHeader 400] ∧
      killVM E r = [.readAll, .log "Bad Post Content %v\n" [.err err], .writeHeader 400]) ∧
    (∀ b err, r.Body = .ok b → checkValid b = some err →
      launchVM E r = [.readAll, .bodyClose, .log "Bad Post Content Parse %v\n" [.err err],
        .writeHeader 400] ∧
      killVM E r = [.readAll, .bodyClose, .log "Bad Post Content Parse %v\n" [.err err],
        .writeHeader 400]) ∧
    ((∃ err, r.Body = .error err) ∨ (∃ b err, r.Body = .ok b ∧ checkValid b = some err) →
      statusCodes (launchVM E r) = [400] ∧ statusCodes (killVM E r) = [400] ∧
      calls (launchVM E r) = [] ∧ calls (killVM E r) = [] ∧
      sdkCalls (launchVM E r) = [] ∧ sdkCalls (killVM E r) = []) ∧
    checkValid [] = some (.jsonSyntax none "unexpected end of JSON input" 0) ∧
    (∀ b, skipSpace b = [] → checkValid b ≠ none) := by
  have h1 : ∀ err, r.Body = .error err →
      launchVM E r = [.readAll, .log "Bad Post Content %v\n" [.err err], .writeHeader 400] ∧
      killVM E r = [.readAll, .log "Bad Post Content %v\n" [.err err], .writeHeader 400] := by
    intro err hb
    simp [launchVM, killVM, hm, hct, hb, StatusBadRequest]
  have h2 : ∀ b err, r.Body = .ok b → checkValid b = some err →
      launchVM E r = [.readAll, .bodyClose, .log "Bad Post Content Parse %v\n" [.err err],
        .writeHeader 400] ∧
      killVM E r = [.readAll, .bodyClose, .log "Bad Post Content Parse %v\n" [.err err],
        .writeHeader 400] := by
    intro b err hb hv
    have hu : Unmarshal E b (some []) = (some [], some err) := by simp [Unmarshal, hv]
    exact ⟨launchVM_undecodable E r b _ err hm hct hb hu,
      killVM_undecodable E r b _ err hm hct hb hu⟩
  refine ⟨h1, h2, ?_, by decide, fun b hs => checkValidLoop_space b 0 hs⟩
  rintro (⟨err, hb⟩ | ⟨b, err, hb, hv⟩)
  · rw [(h1 err hb).1, (h1 err hb).2]
    simp [statusCodes, calls, sdkCalls, Event.isSdk]
  · rw [(h2 b err hb hv).1, (h2 b err hb hv).2]
    simp [statusCodes, calls, sdkCalls, Event.isSdk]

/-- Witness for C3: a POST request with the empty body. -/
theorem malformed_body_rejected_witness :
    (jsonPost "").Method = MethodPost ∧
    (jsonPost "").Header.Get "Content-Type" = "application/json" ∧
    launchVM emptyEnv (jsonPost "") = [.readAll, .bodyClose,
      .log "Bad Post Content Parse %v\n"
        [.err (.jsonSyntax none "unexpected end of JSON input" 0)],
      .writeHeader 400] :=
  ⟨rfl, by decide, ((malformed_body_rejected emptyEnv (jsonPost "") rfl (by decide)).2.1
    [] _ rfl (by decide)).1⟩

/-- C4: for every request that passes the method, content-type and
body-decoding checks, if `createInstance` (resp. `destroyInstance`) returns an
error then `launchVM` (resp. `killVM`) writes status 500; a handler writes 500
only for a request that passed the three checks and whose `createInstance`
(resp. `destroyInstance`) returned an error; and the function returns nil
exactly when the variable is set and the template parse, the template
execution, the client creation, `Insert` (resp. `Delete`) and `Wait` all
succeed, so each of these failures is an error and a 500. -/
theorem instance_error_is_500 (E : Env) (r : Request) :
    (∀ b data, r.Method = MethodPost → r.Header.Get "Content-Type" = "application/json" →
      r.Body = .ok b → Unmarshal E b (some []) = (data, none) →
      ((createInstance E r.ctx data).1 ≠ none → statusCodes (launchVM E r) = [500]) ∧
      ((destroyInstance E r.ctx data).1 ≠ none → statusCodes (killVM E r) = [500])) ∧
    (500 ∈ statusCodes (launchVM E r) →
      r.Method = MethodPost ∧ r.Header.Get "Content-Type" = "application/json" ∧
      ∃ b data, r.Body = .ok b ∧ Unmarshal E b (some []) = (data, none) ∧
        (createInstance E r.ctx data).1 ≠ none) ∧
    (500 ∈ statusCodes (killVM E r) →
      r.Method = MethodPost ∧ r.Header.Get "Content-Type" = "application/json" ∧
      ∃ b data, r.Body = .ok b ∧ Unmarshal E b (some []) = (data, none) ∧
        (destroyInstance E r.ctx data).1 ≠ none) ∧
    (∀ ctx data, (createInstance E ctx data).1 = none ↔
      ¬ (E.Getenv "VM_REQ_TEMPLATE").utf8ByteSize < 1 ∧
      ∃ t tpl c op,
        E.Parse "vm-template" funcMap (E.Getenv "VM_REQ_TEMPLATE") = .ok t ∧
        Execute E t data = .ok tpl ∧
        E.NewInstancesRESTClient ctx = .ok c ∧
        E.Insert c ctx (E.unmarshalInsert tpl E.zeroInsertReq).1 = .ok op ∧
        E.Wait op ctx = none) ∧
    (∀ ctx data, (destroyInstance E ctx data).1 = none ↔
      ¬ (E.Getenv "VM_KILL_TEMPLATE").utf8ByteSize < 1 ∧
      ∃ t tpl c op,
        E.Parse "vm-kill-template" funcMap (E.Getenv "VM_KILL_TEMPLATE") = .ok t ∧
        Execute E t data = .ok tpl ∧
        E.NewInstancesRESTClient ctx = .ok c ∧
        E.Delete c ctx (E.unmarshalDelete tpl E.zeroDeleteReq).1 = .ok op ∧
        E.Wait op ctx = none) := by
  refine ⟨?_, ?_, ?_, ?_, ?_⟩
  · intro b data hm hct hb hu
    rw [statusCodes_launchVM_accepted E r b data hm hct hb hu,
      statusCodes_killVM_accepted E r b data hm hct hb hu]
    constructor
    · intro h
      cases hc : (createInstance E r.ctx data).1 with
      | none => exact absurd hc h
      | some e => rfl
    · intro h
      cases hc : (destroyInstance E r.ctx data).1 with
      | none => exact absurd hc h
      | some e => rfl
  · intro h
    by_cases hm : r.Method = MethodPost
    · by_cases hct : r.Header.Get "Content-Type" = "application/json"
      · refine ⟨hm, hct, ?_⟩
        cases hb : r.Body with
        | error err =>
          simp [launchVM, hm, hct, hb, statusCodes, StatusBadRequest] at h
        | ok b =>
          cases hu : Unmarshal E b (some []) with
          | mk data oerr =>
            cases oerr with
            | some err =>
              rw [launchVM_undecodable E r b data err hm hct hb hu] at h
              simp [statusCodes, StatusBadRequest] at h
            | none =>
              refine ⟨b, data, by first | exact hb | rfl, hu, ?_⟩
              rw [statusCodes_launchVM_accepted E r b data hm hct hb hu] at h
              intro hc
              rw [hc] at h
              simp at h
      · simp [launchVM, hm, hct, statusCodes, StatusBadRequest] at h
    · simp [launchVM, hm, statusCodes, StatusBadRequest] at h
  · intro h
    by_cases hm : r.Method = MethodPost
    · by_cases hct : r.Header.Get "Content-Type" = "application/json"
      · refine ⟨hm, hct, ?_⟩
        cases hb : r.Body with
        | error err =>
          simp [killVM, hm, hct, hb, statusCodes, StatusBadRequest] at h
        | ok b =>
          cases hu : Unmarshal E b (some []) with
          | mk data oerr =>
            cases oerr with
            | some err =>
              rw [killVM_undecodable E r b data err hm hct hb hu] at h
              simp [statusCodes, StatusBadRequest] at h
            | none =>
              refine ⟨b, data, by first | exact hb | rfl, hu, ?_⟩
              rw [statusCodes_killVM_accepted E r b data hm hct hb hu] at h
              intro hc
              rw [hc] at h
              simp at h
      · simp [killVM, hm, hct, statusCodes, StatusBadRequest] at h
    · simp [killVM, hm, statusCodes, StatusBadRequest] at h
  · intro ctx data
    exact createInstance_nil_iff E ctx data
  · intro ctx data
    exact destroyInstance_nil_iff E ctx data

/-- C5: for every request, `launchVM` and `killVM` call `WriteHeader` at most
once, with 400 or 500 (the codes written are none, `[400]` or `[500]`); they
never call `Write`; no status is written if and only if the request is a POST
with content type `application/json` whose body is read and decoded without
error and `createInstance` (resp. `destroyInstance`) returns nil, that is if
and only if no step failed; and then the response keeps the default status
200. -/
theorem status_written_iff_failure (E : Env) (r : Request) :
    ((statusCodes (launchVM E r) = [] ∨ statusCodes (launchVM E r) = [400] ∨
        statusCodes (launchVM E r) = [500]) ∧
      bodyWrites (launchVM E r) = [] ∧
      (statusCodes (launchVM E r) = [] ↔
        r.Method = MethodPost ∧ r.Header.Get "Content-Type" = "application/json" ∧
        ∃ b data, r.Body = .ok b ∧ Unmarshal E b (some []) = (data, none) ∧
          (createInstance E r.ctx data).1 = none) ∧
      (statusCodes (launchVM E r) = [] → responseStatus (launchVM E r) = 200)) ∧
    ((statusCodes (killVM E r) = [] ∨ statusCodes (killVM E r) = [400] ∨
        statusCodes (killVM E r) = [500]) ∧
      bodyWrites (killVM E r) = [] ∧
      (statusCodes (killVM E r) = [] ↔
        r.Method = MethodPost ∧ r.Header.Get "Content-Type" = "application/json" ∧
        ∃ b data, r.Body = .ok b ∧ Unmarshal E b (some []) = (data, none) ∧
          (destroyInstance E r.ctx data).1 = none) ∧
      (statusCodes (killVM E r) = [] → responseStatus (killVM E r) = 200)) := by
  constructor
  · rcases launchVM_status_cases E r with ⟨hs, hw, hn⟩ | ⟨b, data, hm, hct, hb, hu, hw, hs⟩
    · refine ⟨Or.inr (Or.inl hs), hw, ⟨fun h => ?_, fun h => ?_⟩, fun h => ?_⟩
      · rw [hs] at h; simp at h
      · obtain ⟨hm, hct, b, data, hb, hu, _⟩ := h
        exact absurd ⟨hm, hct, b, data, hb, hu⟩ hn
      · rw [hs] at h; simp at h
    · cases hc : (createInstance E r.ctx data).1 with
      | some err =>
        rw [hc] at hs
        refine ⟨Or.inr (Or.inr hs), hw, ⟨fun h => ?_, fun h => ?_⟩, fun h => ?_⟩
        · rw [hs] at h; simp at h
        · obtain ⟨_, _, b2, data2, hb2, hu2, hc2⟩ := h
          rw [hb] at hb2
          cases hb2
          rw [hu] at hu2
          cases hu2
          rw [hc] at hc2
          cases hc2
        · rw [hs] at h; simp at h
      | none =>
        rw [hc] at hs
        refine ⟨Or.inl hs, hw, ⟨fun _ => ⟨hm, hct, b, data, hb, hu, hc⟩, fun _ => hs⟩, fun _ => ?_⟩
        simp [responseStatus, hs]
  · rcases killVM_status_cases E r with ⟨hs, hw, hn⟩ | ⟨b, data, hm, hct, hb, hu, hw, hs⟩
    · refine ⟨Or.inr (Or.inl hs), hw, ⟨fun h => ?_, fun h => ?_⟩, fun h => ?_⟩
      · rw [hs] at h; simp at h
      · obtain ⟨hm, hct, b, data, hb, hu, _⟩ := h
        exact absurd ⟨hm, hct, b, data, hb, hu⟩ hn
      · rw [hs] at h; simp at h
    · cases hc : (destroyInstance E r.ctx data).1 with
      | some err =>
        rw [hc] at hs
        refine ⟨Or.inr (Or.inr hs), hw, ⟨fun h => ?_, fun h => ?_⟩, fun h => ?_⟩
        · rw [hs] at h; simp at h
        · obtain ⟨_, _, b2, data2, hb2, hu2, hc2⟩ := h
          rw [hb] at hb2
          cases hb2
          rw [hu] at hu2
          cases hu2
          rw [hc] at hc2
          cases hc2
        · rw [hs] at h; simp at h
      | none =>
        rw [hc] at hs
        refine ⟨Or.inl hs, hw, ⟨fun _ => ⟨hm, hct, b, data, hb, hu, hc⟩, fun _ => hs⟩, fun _ => ?_⟩
        simp [responseStatus, hs]

/-- C6: with the SDK as an abstract interface and its calls recorded, the SDK
calls of `createInstance` (resp. `destroyInstance`) are, for every input, one
of five sequences: none (the template stage failed); a failed client creation
alone; client creation, a failed `Insert` (resp. `Delete`), `Close`; client
creation, `Insert`, a failed `Wait`, `Close`; client creation, `Insert`,
`Wait`, `Close`, all without error.  So the client is created at most once,
`Insert` is called at most once and only after the client was created, `Wait`
at most once and only after `Insert` succeeded, no failed call is repeated,
and the function returns nil exactly in the last case. -/
theorem sdk_call_discipline (E : Env) (ctx : Context) (data : Data) :
    (((createInstance E ctx data).1 ≠ none ∧ sdkCalls (createInstance E ctx data).2 = []) ∨
      (∃ e, E.NewInstancesRESTClient ctx = .error e ∧
        (createInstance E ctx data).1 ≠ none ∧
        sdkCalls (createInstance E ctx data).2 = [.newClient (.error e)]) ∨
      (∃ c req e, E.NewInstancesRESTClient ctx = .ok c ∧ E.Insert c ctx req = .error e ∧
        (createInstance E ctx data).1 ≠ none ∧
        sdkCalls (createInstance E ctx data).2 =
          [.newClient (.ok c), .insert req (.error e), .close c]) ∨
      (∃ c req op e, E.NewInstancesRESTClient ctx = .ok c ∧ E.Insert c ctx req = .ok op ∧
        E.Wait op ctx = some e ∧
        (createInstance E ctx data).1 ≠ none ∧
        sdkCalls (createInstance E ctx data).2 =
          [.newClient (.ok c), .insert req (.ok op), .wait op (some e), .close c]) ∨
      (∃ c req op, E.NewInstancesRESTClient ctx = .ok c ∧ E.Insert c ctx req = .ok op ∧
        E.Wait op ctx = none ∧
        (createInstance E ctx data).1 = none ∧
        sdkCalls (createInstance E ctx data).2 =
          [.newClient (.ok c), .insert req (.ok op), .wait op none, .close c])) ∧
    (((destroyInstance E ctx data).1 ≠ none ∧ sdkCalls (destroyInstance E ctx data).2 = []) ∨
      (∃ e, E.NewInstancesRESTClient ctx = .error e ∧
        (destroyInstance E ctx data).1 ≠ none ∧
        sdkCalls (destroyInstance E ctx data).2 = [.newClient (.error e)]) ∨
      (∃ c req e, E.NewInstancesRESTClient ctx = .ok c ∧ E.Delete c ctx req = .error e ∧
        (destroyInstance E ctx data).1 ≠ none ∧
        sdkCalls (destroyInstance E ctx data).2 =
          [.newClient (.ok c), .delete req (.error e), .close c]) ∨
      (∃ c req op e, E.NewInstancesRESTClient ctx = .ok c ∧ E.Delete c ctx req = .ok op ∧
        E.Wait op ctx = some e ∧
        (destroyInstance E ctx data).1 ≠ none ∧
        sdkCalls (destroyInstance E ctx data).2 =
          [.newClient (.ok c), .delete req (.ok op), .wait op (some e), .close c]) ∨
      (∃ c req op, E.NewInstancesRESTClient ctx = .ok c ∧ E.Delete c ctx req = .ok op ∧
        E.Wait op ctx = none ∧
        (destroyInstance E ctx data).1 = none ∧
        sdkCalls (destroyInstance E ctx data).2 =
          [.newClient (.ok c), .delete req (.ok op), .wait op none, .close c])) := by
  constructor
  · unfold createInstance
    simp only []
    by_cases henv : (E.Getenv "VM_REQ_TEMPLATE").utf8ByteSize < 1
    · left
      simp [henv, sdkCalls, Event.isSdk]
    · cases hp : E.Parse "vm-template" funcMap (E.Getenv "VM_REQ_TEMPLATE") with
      | error e =>
        left
        simp [henv, hp, sdkCalls, Event.isSdk]
      | ok t =>
        cases hx : Execute E t data with
        | error e =>
          left
          simp [henv, hp, hx, sdkCalls, Event.isSdk]
        | ok tpl =>
          cases hc : E.NewInstancesRESTClient ctx with
          | error e =>
            right; left
            exact ⟨e, rfl, by simp [henv, hp, hx, hc, sdkCalls, Event.isSdk]⟩
          | ok c =>
            cases hi : E.Insert c ctx (E.unmarshalInsert tpl E.zeroInsertReq).1 with
            | error e =>
              right; right; left
              exact ⟨c, _, e, rfl, hi, by simp [henv, hp, hx, hc, hi, sdkCalls, Event.isSdk]⟩
            | ok op =>
              cases hw : E.Wait op ctx with
              | some e =>
                right; right; right; left
                exact ⟨c, _, op, e, rfl, hi, hw,
                  by simp [henv, hp, hx, hc, hi, hw, sdkCalls, Event.isSdk]⟩
              | none =>
                right; right; right; right
                exact ⟨c, _, op, rfl, hi, hw,
                  by simp [henv, hp, hx, hc, hi, hw, sdkCalls, Event.isSdk]⟩
  · unfold destroyInstance
    simp only []
    by_cases henv : (E.Getenv "VM_KILL_TEMPLATE").utf8ByteSize < 1
    · left
      simp [henv, sdkCalls, Event.isSdk]
    · cases hp : E.Parse "vm-kill-template" funcMap (E.Getenv "VM_KILL_TEMPLATE") with
      | error e =>
        left
        simp [henv, hp, sdkCalls, Event.isSdk]
      | ok t =>
        cases hx : Execute E t data with
        | error e =>
          left
          simp [henv, hp, hx, sdkCalls, Event.isSdk]
        | ok tpl =>
          cases hc : E.NewInstancesRESTClient ctx with
          | error e =>
            right; left
            exact ⟨e, rfl, by simp [henv, hp, hx, hc, sdkCalls, Event.isSdk]⟩
          | ok c =>
            cases hi : E.Delete c ctx (E.unmarshalDelete tpl E.zeroDeleteReq).1 with
            | error e =>
              right; right; left
              exact ⟨c, _, e, rfl, hi, by simp [henv, hp, hx, hc, hi, sdkCalls, Event.isSdk]⟩
            | ok op =>
              cases hw : E.Wait op ctx with
              | some e =>
                right; right; right; left
                exact ⟨c, _, op, e, rfl, hi, hw,
                  by simp [henv, hp, hx, hc, hi, hw, sdkCalls, Event.isSdk]⟩
              | none =>
                right; right; right; right
                exact ⟨c, _, op, rfl, hi, hw,
                  by simp [henv, hp, hx, hc, hi, hw, sdkCalls, Event.isSdk]⟩

/-- C7: the first thing `createInstance` does is read `VM_REQ_TEMPLATE`, and
`destroyInstance` `VM_KILL_TEMPLATE`; whenever that variable is unset or the
empty string the function returns the error "VM_REQ_TEMPLATE not set"
(resp. "VM_KILL_TEMPLATE not set") having done nothing else (no template
parsed, no SDK client created), whatever the data is, and the handler answers
500, without any SDK call, to every request that passed its checks. -/
theorem template_env_required (E : Env) :
    (∀ ctx data, ∃ rest, (createInstance E ctx data).2 = .getenv "VM_REQ_TEMPLATE" :: rest) ∧
    (∀ ctx data, ∃ rest, (destroyInstance E ctx data).2 = .getenv "VM_KILL_TEMPLATE" :: rest) ∧
    (E.LookupEnv "VM_REQ_TEMPLATE" = none ∨ E.LookupEnv "VM_REQ_TEMPLATE" = some "" →
      (∀ ctx data, createInstance E ctx data =
        (some (.errorf "VM_REQ_TEMPLATE not set"), [.getenv "VM_REQ_TEMPLATE"])) ∧
      (∀ r b data, r.Method = MethodPost → r.Header.Get "Content-Type" = "application/json" →
        r.Body = .ok b → Unmarshal E b (some []) = (data, none) →
        statusCodes (launchVM E r) = [500] ∧ sdkCalls (launchVM E r) = [])) ∧
    (E.LookupEnv "VM_KILL_TEMPLATE" = none ∨ E.LookupEnv "VM_KILL_TEMPLATE" = some "" →
      (∀ ctx data, destroyInstance E ctx data =
        (some (.errorf "VM_KILL_TEMPLATE not set"), [.getenv "VM_KILL_TEMPLATE"])) ∧
      (∀ r b data, r.Method = MethodPost → r.Header.Get "Content-Type" = "application/json" →
        r.Body = .ok b → Unmarshal E b (some []) = (data, none) →
        statusCodes (killVM E r) = [500] ∧ sdkCalls (killVM E r) = [])) := by
  refine ⟨?_, ?_, ?_, ?_⟩
  · intro ctx data
    unfold createInstance
    simp only []
    repeat' split
    all_goals simp
  · intro ctx data
    unfold destroyInstance
    simp only []
    repeat' split
    all_goals simp
  · intro h
    have hg : (E.Getenv "VM_REQ_TEMPLATE").utf8ByteSize < 1 := by
      rw [utf8ByteSize_lt_one]
      rcases h with h | h <;> simp [Env.Getenv, h]
    have hc : ∀ ctx data, createInstance E ctx data =
        (some (.errorf "VM_REQ_TEMPLATE not set"), [.getenv "VM_REQ_TEMPLATE"]) := by
      intro ctx data
      simp [createInstance, hg]
    refine ⟨hc, ?_⟩
    intro r b data hm hct hb hu
    rw [launchVM_accepted E r b data hm hct hb hu, hc]
    simp [statusCodes, sdkCalls, Event.isSdk, StatusInternalServerError]
  · intro h
    have hg : (E.Getenv "VM_KILL_TEMPLATE").utf8ByteSize < 1 := by
      rw [utf8ByteSize_lt_one]
      rcases h with h | h <;> simp [Env.Getenv, h]
    have hc : ∀ ctx data, destroyInstance E ctx data =
        (some (.errorf "VM_KILL_TEMPLATE not set"), [.getenv "VM_KILL_TEMPLATE"]) := by
      intro ctx data
      simp [destroyInstance, hg]
    refine ⟨hc, ?_⟩
    intro r b data hm hct hb hu
    rw [killVM_accepted E r b data hm hct hb hu, hc]
    simp [statusCodes, sdkCalls, Event.isSdk, StatusInternalServerError]

/-- C9: the result of decoding the rendered template into the provider
request is never inspected.  Whenever the variable is set and the template
parses and renders a text, then whatever error `json.Unmarshal` returns for
that text (the error is only recorded in the event), the next thing
`createInstance` (resp. `destroyInstance`) does is create the client; when the
client is created it calls `Insert` (resp. `Delete`) with the request as the
decoder left it; and it returns nil if and only if client creation, `Insert`
(resp. `Delete`) and `Wait` succeed, a condition in which the decoding error
does not occur. -/
theorem request_decode_unchecked (E : Env) (ctx : Context) (data : Data) :
    (∀ t tpl, ¬ (E.Getenv "VM_REQ_TEMPLATE").utf8ByteSize < 1 →
      E.Parse "vm-template" funcMap (E.Getenv "VM_REQ_TEMPLATE") = .ok t →
      Execute E t data = .ok tpl →
      (∃ post, (createInstance E ctx data).2 =
        [.getenv "VM_REQ_TEMPLATE",
          .templateParse "vm-template" (E.Getenv "VM_REQ_TEMPLATE"),
          .templateExecute "vm-template",
          .unmarshalRequest tpl (E.unmarshalInsert tpl E.zeroInsertReq).2,
          .newClient (E.NewInstancesRESTClient ctx)] ++ post) ∧
      (∀ c, E.NewInstancesRESTClient ctx = .ok c →
        Event.insert (E.unmarshalInsert tpl E.zeroInsertReq).1
          (E.Insert c ctx (E.unmarshalInsert tpl E.zeroInsertReq).1)
          ∈ (createInstance E ctx data).2) ∧
      ((createInstance E ctx data).1 = none ↔
        ∃ c op, E.NewInstancesRESTClient ctx = .ok c ∧
          E.Insert c ctx (E.unmarshalInsert tpl E.zeroInsertReq).1 = .ok op ∧
          E.Wait op ctx = none)) ∧
    (∀ t tpl, ¬ (E.Getenv "VM_KILL_TEMPLATE").utf8ByteSize < 1 →
      E.Parse "vm-kill-template" funcMap (E.Getenv "VM_KILL_TEMPLATE") = .ok t →
      Execute E t data = .ok tpl →
      (∃ post, (destroyInstance E ctx data).2 =
        [.getenv "VM_KILL_TEMPLATE",
          .templateParse "vm-kill-template" (E.Getenv "VM_KILL_TEMPLATE"),
          .templateExecute "vm-kill-template",
          .unmarshalRequest tpl (E.unmarshalDelete tpl E.zeroDeleteReq).2,
          .newClient (E.NewInstancesRESTClient ctx)] ++ post) ∧
      (∀ c, E.NewInstancesRESTClient ctx = .ok c →
        Event.delete (E.unmarshalDelete tpl E.zeroDeleteReq).1
          (E.Delete c ctx (E.unmarshalDelete tpl E.zeroDeleteReq).1)
          ∈ (destroyInstance E ctx data).2) ∧
      ((destroyInstance E ctx data).1 = none ↔
        ∃ c op, E.NewInstancesRESTClient ctx = .ok c ∧
          E.Delete c ctx (E.unmarshalDelete tpl E.zeroDeleteReq).1 = .ok op ∧
          E.Wait op ctx = none)) := by
  constructor
  · intro t tpl henv hp hx
    unfold createInstance
    simp only []
    cases hc : E.NewInstancesRESTClient ctx with
    | error e => simp [henv, hp, hx, hc]
    | ok c =>
      cases hi : E.Insert c ctx (E.unmarshalInsert tpl E.zeroInsertReq).1 with
      | error e => simp [henv, hp, hx, hc, hi]
      | ok op =>
        cases hw : E.Wait op ctx with
        | some e => simp [henv, hp, hx, hc, hi, hw]
        | none => simp [henv, hp, hx, hc, hi, hw]
  · intro t tpl henv hp hx
    unfold destroyInstance
    simp only []
    cases hc : E.NewInstancesRESTClient ctx with
    | error e => simp [henv, hp, hx, hc]
    | ok c =>
      cases hi : E.Delete c ctx (E.unmarshalDelete tpl E.zeroDeleteReq).1 with
      | error e => simp [henv, hp, hx, hc, hi]
      | ok op =>
        cases hw : E.Wait op ctx with
        | some e => simp [henv, hp, hx, hc, hi, hw]
        | none => simp [henv, hp, hx, hc, hi, hw]

/-- C10: for a POST request with content type `application/json` whose body
`checkValid` accepts: if the value is the literal `null` (the first byte
after leading space is `n`), `json.Unmarshal` returns no error and leaves the
map nil, and `launchVM` / `killVM` do not write 400 but call `createInstance`
/ `destroyInstance` with the nil map; if the value is an array, a string, a
boolean or a number (first byte `[`, a quote, `t`, `f`, `-` or a digit),
`json.Unmarshal` returns an error and the handlers write 400 without calling
`createInstance` / `destroyInstance`.  Together with the object (first byte
an opening brace) these are all the bodies `checkValid` accepts. -/
theorem null_body_accepted (E : Env) (r : Request) (b : List Nat)
    (hm : r.Method = MethodPost) (hct : r.Header.Get "Content-Type" = "application/json")
    (hb : r.Body = .ok b) (hv : checkValid b = none) :
    (∀ rest, skipSpace b = 110 :: rest →
      Unmarshal E b (some []) = (none, none) ∧
      (∃ post, launchVM E r = [.readAll, .bodyClose, .call "createInstance" none] ++ post) ∧
      (∃ post, killVM E r = [.readAll, .bodyClose, .call "destroyInstance" none] ++ post) ∧
      400 ∉ statusCodes (launchVM E r) ∧ 400 ∉ statusCodes (killVM E r)) ∧
    (∀ c rest, skipSpace b = c :: rest →
      c = 91 ∨ c = 34 ∨ c = 116 ∨ c = 102 ∨ c = 45 ∨ isDigit c = true →
      (∃ err, Unmarshal E b (some []) = (some [], some err)) ∧
      statusCodes (launchVM E r) = [400] ∧ statusCodes (killVM E r) = [400] ∧
      calls (launchVM E r) = [] ∧ calls (killVM E r) = [] ∧
      sdkCalls (launchVM E r) = [] ∧ sdkCalls (killVM E r) = []) ∧
    (∃ c rest, skipSpace b = c :: rest ∧
      (c = 123 ∨ c = 110 ∨ c = 91 ∨ c = 34 ∨ c = 116 ∨ c = 102 ∨ c = 45 ∨
        isDigit c = true)) := by
  refine ⟨?_, ?_, first_byte_of_valid b hv⟩
  · intro rest hs
    have hu : Unmarshal E b (some []) = (none, none) := by
      simp [Unmarshal, hv, hs]
    refine ⟨hu, ⟨_, launchVM_accepted E r b none hm hct hb hu⟩,
      ⟨_, killVM_accepted E r b none hm hct hb hu⟩, ?_, ?_⟩
    · rw [statusCodes_launchVM_accepted E r b none hm hct hb hu]
      cases (createInstance E r.ctx none).1 <;> simp
    · rw [statusCodes_killVM_accepted E r b none hm hct hb hu]
      cases (destroyInstance E r.ctx none).1 <;> simp
  · intro c rest hs hk
    have hu : ∃ err, Unmarshal E b (some []) = (some [], some err) := by
      unfold Unmarshal
      simp only [hv, hs]
      rcases hk with h | h | h | h | h | h
      · subst h; exact ⟨_, rfl⟩
      · subst h; exact ⟨_, rfl⟩
      · subst h; exact ⟨_, rfl⟩
      · subst h; exact ⟨_, rfl⟩
      · subst h; exact ⟨_, rfl⟩
      · have h1 : 48 ≤ c ∧ c ≤ 57 := by simpa [isDigit] using h
        have n1 : c ≠ 123 := by omega
        have n2 : c ≠ 91 := by omega
        have n3 : c ≠ 110 := by omega
        have n4 : ¬ (c = 116 ∨ c = 102) := by omega
        have n5 : c ≠ 34 := by omega
        simp [n1, n2, n3, n4, n5]
    obtain ⟨err, hu⟩ := hu
    refine ⟨⟨err, hu⟩, ?_⟩
    rw [launchVM_undecodable E r b _ err hm hct hb hu,
      killVM_undecodable E r b _ err hm hct hb hu]
    simp [statusCodes, calls, sdkCalls, Event.isSdk, StatusBadRequest]

/-- Witness for C10: the body `null`. -/
theorem null_body_accepted_witness :
    (jsonPost "null").Method = MethodPost ∧
    (jsonPost "null").Header.Get "Content-Type" = "application/json" ∧
    (jsonPost "null").Body = .ok (ascii "null") ∧
    checkValid (ascii "null") = none ∧
    skipSpace (ascii "null") = 110 :: ascii "ull" ∧
    Unmarshal emptyEnv (ascii "null") (some []) = (none, none) ∧
    400 ∉ statusCodes (launchVM emptyEnv (jsonPost "null")) :=
  ⟨rfl, by decide, rfl, by decide, by decide,
    ((null_body_accepted emptyEnv (jsonPost "null") (ascii "null") rfl (by decide) rfl
      (by decide)).1 (ascii "ull") (by decide)).1,
    ((null_body_accepted emptyEnv (jsonPost "null") (ascii "null") rfl (by decide) rfl
      (by decide)).1 (ascii "ull") (by decide)).2.2.2.1⟩

/-- C8, counterexample: the template `{{if false}}{{.name}}{{end}}` mentions
the top-level key `name`, the body `{}` does not contain it, and yet execution
succeeds with the empty text, `createInstance` returns nil after creating the
client and calling `Insert` and `Wait`, and `launchVM` writes no status.
Moreover the template `{{.name}}` on a map that holds `name` with the value
nil (the body `{"name": null}`) renders `<no value>`. -/
theorem strict_substitution_counterexample :
    mentionsKeyList "name" guardedTree = true ∧
    ([] : GoMap).lookup "name" = none ∧
    Execute (templateEnv guardedText) ⟨"vm-template", guardedTree⟩ (some []) = .ok "" ∧
    (createInstance (templateEnv guardedText) 0 (some [])).1 = none ∧
    sdkCalls (createInstance (templateEnv guardedText) 0 (some [])).2 =
      [.newClient (.ok ()), .insert "" (.ok ()), .wait () none, .close ()] ∧
    statusCodes (launchVM (templateEnv guardedText) (jsonPost "\x7b\x7d")) = [] ∧
    Execute (templateEnv plainText) ⟨"vm-template", plainTree⟩ (some [("name", .nil)])
      = .ok "<no value>" := by
  exact ⟨by decide, rfl, rfl, rfl, rfl, rfl, rfl⟩

/-- C8, amended: if the root list of the template has, outside every branch,
an action or an `if` whose pipeline is a field chain starting with `.key`,
then for every map (nil included) without that key the execution with
`missingkey=error` fails; `createInstance` (resp. `destroyInstance`) returns
an error right after the execution, without decoding a request, creating an
SDK client or calling `Insert` (resp. `Delete`), and the handler answers 500
without any SDK call. -/
theorem evaluated_missing_key_fails (E : Env) (t : Template) (key : String) (data : Data)
    (hev : evaluatesKey key t.root = true) (hmiss : (data.getD []).lookup key = none) :
    (∃ e, Execute E t data = .error e) ∧
    (¬ (E.Getenv "VM_REQ_TEMPLATE").utf8ByteSize < 1 →
      E.Parse "vm-template" funcMap (E.Getenv "VM_REQ_TEMPLATE") = .ok t →
      (∀ ctx, (createInstance E ctx data).1 ≠ none ∧
        (createInstance E ctx data).2 =
          [.getenv "VM_REQ_TEMPLATE",
            .templateParse "vm-template" (E.Getenv "VM_REQ_TEMPLATE"),
            .templateExecute "vm-template"]) ∧
      (∀ r b, r.Method = MethodPost → r.Header.Get "Content-Type" = "application/json" →
        r.Body = .ok b → Unmarshal E b (some []) = (data, none) →
        statusCodes (launchVM E r) = [500] ∧ sdkCalls (launchVM E r) = [])) ∧
    (¬ (E.Getenv "VM_KILL_TEMPLATE").utf8ByteSize < 1 →
      E.Parse "vm-kill-template" funcMap (E.Getenv "VM_KILL_TEMPLATE") = .ok t →
      (∀ ctx, (destroyInstance E ctx data).1 ≠ none ∧
        (destroyInstance E ctx data).2 =
          [.getenv "VM_KILL_TEMPLATE",
            .templateParse "vm-kill-template" (E.Getenv "VM_KILL_TEMPLATE"),
            .templateExecute "vm-kill-template"]) ∧
      (∀ r b, r.Method = MethodPost → r.Header.Get "Content-Type" = "application/json" →
        r.Body = .ok b → Unmarshal E b (some []) = (data, none) →
        statusCodes (killVM E r) = [500] ∧ sdkCalls (killVM E r) = [])) := by
  obtain ⟨e, he⟩ := walkList_missing_key E data key t.root hev hmiss
  have hx : Execute E t data = .error e := he
  refine ⟨⟨e, hx⟩, ?_, ?_⟩
  · intro henv hp
    have hc : ∀ ctx, createInstance E ctx data =
        (some (.wrapf "NewInstancesRESTClient" e),
          [.getenv "VM_REQ_TEMPLATE",
            .templateParse "vm-template" (E.Getenv "VM_REQ_TEMPLATE"),
            .templateExecute "vm-template"]) := by
      intro ctx
      simp [createInstance, henv, hp, hx]
    refine ⟨fun ctx => by simp [hc ctx], ?_⟩
    intro r b hm hct hb hu
    rw [launchVM_accepted E r b data hm hct hb hu, hc]
    simp [statusCodes, sdkCalls, Event.isSdk, StatusInternalServerError]
  · intro henv hp
    have hc : ∀ ctx, destroyInstance E ctx data =
        (some (.wrapf "NewInstancesRESTClient" e),
          [.getenv "VM_KILL_TEMPLATE",
            .templateParse "vm-kill-template" (E.Getenv "VM_KILL_TEMPLATE"),
            .templateExecute "vm-kill-template"]) := by
      intro ctx
      simp [destroyInstance, henv, hp, hx]
    refine ⟨fun ctx => by simp [hc ctx], ?_⟩
    intro r b hm hct hb hu
    rw [killVM_accepted E r b data hm hct hb hu, hc]
    simp [statusCodes, sdkCalls, Event.isSdk, StatusInternalServerError]

/-- Witness for C8, amended: the template `{{.name}}` on the body `{}`. -/
theorem evaluated_missing_key_fails_witness :
    evaluatesKey "name" plainTree = true ∧
    ((some [] : Data).getD []).lookup "name" = none ∧
    (∃ e, Execute (templateEnv plainText) ⟨"vm-template", plainTree⟩ (some []) = .error e) ∧
    statusCodes (launchVM (templateEnv plainText) (jsonPost "\x7b\x7d")) = [500] :=
  ⟨by decide, rfl,
    (evaluated_missing_key_fails (templateEnv plainText) ⟨"vm-template", plainTree⟩ "name"
      (some []) (by decide) rfl).1,
    (((evaluated_missing_key_fails (templateEnv plainText) ⟨"vm-template", plainTree⟩ "name"
      (some []) (by decide) rfl).2.1 (by decide) rfl).2
      (jsonPost "\x7b\x7d") (ascii "\x7b\x7d") rfl (by decide) rfl rfl).1⟩

/-- Witness for C4: the template `.name` on the body `{}` fails in
execution and the handler answers 500. -/
theorem instance_error_is_500_witness :
    (createInstance (templateEnv plainText) 0 (some [])).1 ≠ none ∧
    statusCodes (launchVM (templateEnv plainText) (jsonPost "\x7b\x7d")) = [500] :=
  ⟨by decide,
    ((instance_error_is_500 (templateEnv plainText) (jsonPost "\x7b\x7d")).1
      (ascii "\x7b\x7d") (some []) rfl (by decide) rfl rfl).1 (by decide)⟩

/-- Witness for C5: a request for which every step succeeds gets no status
written and the default 200. -/
theorem status_written_iff_failure_witness :
    statusCodes (launchVM (templateEnv guardedText) (jsonPost "\x7b\x7d")) = [] ∧
    responseStatus (launchVM (templateEnv guardedText) (jsonPost "\x7b\x7d")) = 200 :=
  ⟨rfl, (status_written_iff_failure (templateEnv guardedText)
    (jsonPost "\x7b\x7d")).1.2.2.2 rfl⟩

/-- Witness for C6: with a template that renders and an SDK that succeeds
the function returns nil after exactly the four calls. -/
theorem sdk_call_discipline_witness :
    (createInstance (templateEnv guardedText) 0 (some [])).1 = none ∧
    ∃ c req op, sdkCalls (createInstance (templateEnv guardedText) 0 (some [])).2 =
      [.newClient (.ok c), .insert req (.ok op), .wait op none, .close c] := by
  refine ⟨rfl, ?_⟩
  rcases (sdk_call_discipline (templateEnv guardedText) 0 (some [])).1 with
    h | ⟨_, _, h, _⟩ | ⟨_, _, _, _, _, h, _⟩ | ⟨_, _, _, _, _, _, _, h, _⟩ | ⟨c, req, op, _, _, _, _, h⟩
  · exact absurd rfl h.1
  · exact absurd rfl h
  · exact absurd rfl h
  · exact absurd rfl h
  · exact ⟨c, req, op, h⟩

/-- Witness for C7: an environment without the variable. -/
theorem template_env_required_witness :
    emptyEnv.LookupEnv "VM_REQ_TEMPLATE" = none ∧
    createInstance emptyEnv 0 (some []) =
      (some (.errorf "VM_REQ_TEMPLATE not set"), [.getenv "VM_REQ_TEMPLATE"]) ∧
    statusCodes (launchVM emptyEnv (jsonPost "\x7b\x7d")) = [500] :=
  ⟨rfl, ((template_env_required emptyEnv).2.2.1 (Or.inl rfl)).1 0 (some []),
    (((template_env_required emptyEnv).2.2.1 (Or.inl rfl)).2 (jsonPost "\x7b\x7d")
      (ascii "\x7b\x7d") (some []) rfl (by decide) rfl rfl).1⟩

/-- Witness for C9: the rendered text is empty, the decoder reports a
syntax error, and the function still returns nil because the SDK calls
succeed. -/
theorem request_decode_unchecked_witness :
    Execute (templateEnv guardedText) ⟨"vm-template", guardedTree⟩ (some []) = .ok "" ∧
    ((templateEnv guardedText).unmarshalInsert "" (templateEnv guardedText).zeroInsertReq).2 =
      some (.jsonSyntax none "unexpected end of JSON input" 0) ∧
    ((createInstance (templateEnv guardedText) 0 (some [])).1 = none ↔
      ∃ c op, (templateEnv guardedText).NewInstancesRESTClient 0 = .ok c ∧
        (templateEnv guardedText).Insert c 0
          ((templateEnv guardedText).unmarshalInsert ""
            (templateEnv guardedText).zeroInsertReq).1 = .ok op ∧
        (templateEnv guardedText).Wait op 0 = none) :=
  ⟨rfl, rfl,
    ((request_decode_unchecked (templateEnv guardedText) 0 (some [])).1
      ⟨"vm-template", guardedTree⟩ "" (by decide) rfl rfl).2.2⟩

end VmLauncher
